import Mathlib

/-!
Verification of the Vafrum bridge core (`src/main.js`) against its
natural-language specification.

Embedding conventions
- JavaScript objects become Lean structures; a field that may be absent or
  `null`/`undefined` becomes an `Option` (JS `??` treats `null` and
  `undefined` alike, so both are modelled as `none`).
- JS `Map`s become association lists `List (String × α)`; `Map.has` becomes
  `contains` on the key list, `Map.get` becomes `lookup`.
- JS numbers that carry integral values are modelled as `Nat`/`Int`; the one
  place where IEEE-754 double rounding is observable (the fan-speed scaling
  `Math.round(speed * 2.55)`) is modelled exactly, with the double constant
  nearest to the literal `2.55` and round-to-nearest-even at 53 significant
  bits.
- Node `Buffer`s become `List Nat` of byte values.
- `JSON.stringify` drops object properties whose value is `undefined`; wire
  payloads are therefore modelled with optional fields omitted when the
  corresponding command parameter is absent.
- Code that throws inside the message handler's `try { ... } catch (e) {}`
  is modelled with `Except`; the catch keeps whatever store mutations
  happened before the throw.
-/

/-- JS falsy-or for strings: `a || b` where an empty string is falsy
(used e.g. at `main.js:665` for `gcode_file || subtask_name || ...`). -/
def jsOrStr (a : Option String) (b : Option String) : Option String :=
  match a with
  | some s => if s = "" then b else some s
  | none => b

/-- JS falsy-or for numbers: `a || d` where `0` is falsy
(used e.g. at `main.js:929` for `cmd.distance || 10`). -/
def jsOrInt (a : Option Int) (d : Int) : Int :=
  match a with
  | some n => if n = 0 then d else n
  | none => d

/-- JS `String(x)` / string concatenation with a possibly-undefined number:
`'' + undefined` is the string `"undefined"`. -/
def jsNumToString (a : Option Int) : String :=
  match a with
  | some n => toString n
  | none => "undefined"

/-- JS truthiness of a possibly-absent string (absent or `''` is falsy). -/
def jsTruthyStr (a : Option String) : Bool :=
  match a with
  | some s => s ≠ ""
  | none => false

/-- Char-list prefix test (structural, so it evaluates by reduction). -/
def hasPrefixChars : List Char → List Char → Bool
  | _, [] => true
  | [], _ :: _ => false
  | c :: cs, d :: ds => c == d && hasPrefixChars cs ds

/-- Char-list substring test (structural, so it evaluates by reduction). -/
def hasSubstrChars (pat : List Char) : List Char → Bool
  | [] => pat.isEmpty
  | c :: cs => hasPrefixChars (c :: cs) pat || hasSubstrChars pat cs

/-- `String.prototype.includes(sub)` for the model strings used by the
bridge (`main.js` tests e.g. `model.toUpperCase().includes('H2')`). -/
def jsIncludes (s sub : String) : Bool :=
  hasSubstrChars sub.data s.data

/-- `String.prototype.toUpperCase()` as a character map (the library
`String.toUpper` recurses on byte positions and does not evaluate by
kernel reduction). -/
def jsToUpper (s : String) : String :=
  ⟨s.data.map Char.toUpper⟩

/-! ## Temperature decoding (main.js:611-614)

```
const decodeTemp = (encoded) => {
  if (encoded === undefined || encoded === null || encoded === 0)
    return { current: 0, target: 0 };
  return { current: encoded & 0xFFFF, target: (encoded >> 16) & 0xFFFF };
};
```
For a 32-bit value `e`, JS `e & 0xFFFF` equals `e % 2^16` and
`(e >> 16) & 0xFFFF` equals `(e / 2^16) % 2^16` (also for `e ≥ 2^31`,
where `ToInt32` wraps: the wrap is a multiple of `2^32`, which vanishes in
both the low and the shifted-high 16-bit masks). -/

/-- `decodeTemp` from `main.js:611-614`: current in the low 16 bits,
target in the high 16 bits; absent/null/zero input decodes to zeros. -/
def decodeTemp : Option Nat → Nat × Nat
  | none => (0, 0)
  | some e => if e = 0 then (0, 0) else (e % 65536, e / 65536 % 65536)

/-! ## Reconnect policy and per-device session bookkeeping

Global maps from `main.js`:
- `mqttClients`            (line 14)  serial → live MQTT client
- `printerDataCache`       (line 59)  serial → printer record cached for reconnect
- `printerReconnectTimers` (line 58)  serial → pending reconnect timer
- `reconnectAttempts`      (line 781) serial → attempt counter

The model keeps `mqttClients` and `printerDataCache` as serial lists
(presence is what the control flow tests) and the two counters/timers as
association lists. A pending timer is represented by the delay it was
scheduled with. -/

/-- Insert a serial into a presence list (idempotent, models `Map.set`). -/
def insertSerial (l : List String) (s : String) : List String :=
  if l.contains s then l else s :: l

/-- Remove a serial from a presence list (models `Map.delete`). -/
def removeSerial (l : List String) (s : String) : List String :=
  l.filter (fun x => x ≠ s)

/-- `Map.set` on an association list. -/
def setEntry (l : List (String × Nat)) (k : String) (v : Nat) : List (String × Nat) :=
  (k, v) :: l.filter (fun p => p.1 ≠ k)

/-- `Map.delete` on an association list. -/
def eraseEntry (l : List (String × Nat)) (k : String) : List (String × Nat) :=
  l.filter (fun p => p.1 ≠ k)

/-- The per-device session bookkeeping shared by `connectPrinter`,
`scheduleReconnect`, `resetReconnectCounter` and the roster handlers. -/
structure SessionState where
  mqttClients : List String
  printerDataCache : List String
  printerReconnectTimers : List (String × Nat)
  reconnectAttempts : List (String × Nat)
deriving DecidableEq, Repr

/-- Backoff delay for a given attempt count, `main.js:792`:
`Math.min(5000 * Math.pow(2, attempts), 120000)`. -/
def reconnectDelay (attempts : Nat) : Nat :=
  min (5000 * 2 ^ attempts) 120000

/-- `scheduleReconnect` (`main.js:783-810`): no-op without cached printer
data or with a live client; otherwise reads the attempt counter
(absent ↦ 0), schedules a timer with `reconnectDelay` and increments the
counter. -/
def scheduleReconnect (st : SessionState) (serial : String) : SessionState :=
  if st.printerDataCache.contains serial = false then st
  else if st.mqttClients.contains serial then st
  else
    let attempts := ((st.reconnectAttempts.lookup serial).getD 0)
    { st with
      reconnectAttempts := setEntry st.reconnectAttempts serial (attempts + 1)
      printerReconnectTimers := setEntry st.printerReconnectTimers serial (reconnectDelay attempts) }

/-- `resetReconnectCounter` (`main.js:813-816`): deletes the attempt
counter (the error-throttle map is not modelled). -/
def resetReconnectCounter (st : SessionState) (serial : String) : SessionState :=
  { st with reconnectAttempts := eraseEntry st.reconnectAttempts serial }

/-- Synchronous prefix of `connectPrinter` (`main.js:304-325`): no-op if a
client already exists; caches the printer data and clears any pending
reconnect timer before opening the connection. -/
def connectPrinterEntry (st : SessionState) (serial : String) : SessionState :=
  if st.mqttClients.contains serial then st
  else
    { st with
      printerDataCache := insertSerial st.printerDataCache serial
      printerReconnectTimers := eraseEntry st.printerReconnectTimers serial }

/-- The MQTT `connect` event handler's session effects (`main.js:327-338`):
registers the client and resets the reconnect counter. -/
def onMqttConnect (st : SessionState) (serial : String) : SessionState :=
  resetReconnectCounter
    { st with mqttClients := insertSerial st.mqttClients serial } serial

/-- The MQTT `close` event handler's session effects (`main.js:751-777`):
deletes the client and calls `scheduleReconnect`. -/
def onMqttClose (st : SessionState) (serial : String) : SessionState :=
  scheduleReconnect { st with mqttClients := removeSerial st.mqttClients serial } serial

/-- The `printer:remove` roster handler (`main.js:216-229`): only if a live
client exists it ends the client (the induced `close` event is a separate
step) and deletes it from `mqttClients`; `printerDataCache`,
`printerReconnectTimers` and `reconnectAttempts` are not touched. -/
def onPrinterRemove (st : SessionState) (serial : String) : SessionState :=
  if st.mqttClients.contains serial then
    { st with mqttClients := removeSerial st.mqttClients serial }
  else st

/-- Expiry of a pending reconnect timer (`main.js:802-807`): the timer
deletes itself and, when no client exists, re-enters `connectPrinter`. -/
def onReconnectTimerFire (st : SessionState) (serial : String) : SessionState :=
  let st1 := { st with printerReconnectTimers := eraseEntry st.printerReconnectTimers serial }
  if st1.mqttClients.contains serial then st1
  else connectPrinterEntry st1 serial

/-! ## Fan-speed scaling (main.js:895-897)

`Math.round((cmd.speed || 0) * 2.55)` is evaluated in IEEE-754 double
precision. The double nearest to the literal `2.55` is
`2871044762448691 / 2^50 = 2.54999999999999982236431605997495353…`, and the
product `speed * 2.55` is that exact rational product rounded to the
nearest double (53 significant bits, ties to even). `Math.round(x)` is the
integer nearest to `x`, half toward positive infinity. -/

/-- The IEEE-754 double nearest to the source literal `2.55`
(`main.js:895-897`), as an exact rational: numerator over `2^50`. -/
def double255Num : Nat := 2871044762448691

/-- Fuel-driven binary logarithm (kernel-reducible replacement for
`Nat.log2`, whose well-founded recursion the kernel cannot evaluate). -/
def log2fuel : Nat → Nat → Nat
  | 0, _ => 0
  | fuel + 1, n => if n < 2 then 0 else log2fuel fuel (n / 2) + 1

/-- `⌊log₂ n⌋` for `n ≥ 1` (fuel `n` always suffices since the argument
halves each step). -/
def natLog2 (n : Nat) : Nat := log2fuel n n

/-- Round a natural number to 53 significant bits, ties to even: the
significand rounding step of IEEE-754 double multiplication (the products
`speed * double255Num` stay far below the overflow range, so no exponent
clamping is involved). -/
def roundMantissa (m : Nat) : Nat :=
  if m < 2 ^ 53 then m
  else
    let s := natLog2 m - 52
    let q := m / 2 ^ s
    let r := m % 2 ^ s
    let half := 2 ^ s
    (if 2 * r > half then q + 1
     else if 2 * r < half then q
     else if q % 2 = 0 then q else q + 1) * 2 ^ s

/-- The double product `speed * 2.55` as an exact rational. -/
def jsMulDouble255 (speed : Nat) : Rat :=
  (roundMantissa (speed * double255Num) : Rat) / 2 ^ 50

/-- JS `Math.round` for non-negative arguments: nearest integer, half
toward positive infinity. -/
def jsMathRound (x : Rat) : Int :=
  ⌊x + 1 / 2⌋

/-- The native 0-255 fan value sent on the wire:
`Math.round((cmd.speed || 0) * 2.55)` from `main.js:895-897`. -/
def fanSpeedNative (speed : Option Nat) : Int :=
  jsMathRound (jsMulDouble255 (speed.getD 0))

/-- Evaluation bridge: `Math.round` of a dyadic rational `m / 2^50` is the
integer division `(2m + 2^50) / 2^51`, which the kernel can compute. -/
theorem jsMathRound_dyadic (m : Nat) :
    jsMathRound ((m : Rat) / 2 ^ 50) = (((2 * m + 2 ^ 50) / 2 ^ 51 : Nat) : Int) := by
  unfold jsMathRound
  have h : (m : Rat) / 2 ^ 50 + 1 / 2
      = ((2 * m + 2 ^ 50 : Nat) : Rat) / ((2 ^ 51 : Nat) : Rat) := by
    push_cast
    ring
  rw [h, Rat.floor_natCast_div_natCast]
  omega

/-- Closed form of `fanSpeedNative` in integer arithmetic. -/
theorem fanSpeedNative_eval (speed : Option Nat) :
    fanSpeedNative speed
      = (((2 * roundMantissa ((speed.getD 0) * double255Num) + 2 ^ 50) / 2 ^ 51 : Nat) : Int) := by
  unfold fanSpeedNative jsMulDouble255
  exact jsMathRound_dyadic _

/-! ## Camera frame extraction (Group 1 direct capture and Group 2 relay)

`processJpegBuffer` (`main.js:1344-1401`) scans a growing byte buffer for
JPEG frames delimited by the 2-byte start marker `FF D8` and end marker
`FF D9`, using `Buffer.indexOf`. `processRtspFrameBuffer`
(`main.js:1699-1746`) does the same scan over the transcoder's HTTP body
stream. Bytes are modelled as `Nat` values; `0xFF = 255`, `0xD8 = 216`,
`0xD9 = 217`. -/

/-- `Buffer.indexOf(needle)` for a 2-byte needle `[a, b]`: index of the
first `i` with `l[i] = a` and `l[i+1] = b`. -/
def bufIndexOfPair (a b : Nat) : List Nat → Option Nat
  | [] => none
  | [_] => none
  | x :: y :: rest =>
    if x = a ∧ y = b then some 0
    else (bufIndexOfPair a b (y :: rest)).map (· + 1)

theorem bufIndexOfPair_bound {a b : Nat} :
    ∀ {l : List Nat} {i : Nat}, bufIndexOfPair a b l = some i → i + 2 ≤ l.length := by
  intro l
  induction l with
  | nil => intro i h; simp [bufIndexOfPair] at h
  | cons x t ih =>
    intro i h
    match t, h with
    | [], h => simp [bufIndexOfPair] at h
    | y :: rest, h =>
      rw [bufIndexOfPair] at h
      by_cases hc : x = a ∧ y = b
      · rw [if_pos hc] at h
        cases h
        simp
      · rw [if_neg hc] at h
        rcases Option.map_eq_some'.mp h with ⟨j, hj, hji⟩
        have hb := ih hj
        subst hji
        simp only [List.length_cons] at hb ⊢
        omega

theorem bufIndexOfPair_cons2 (a b : Nat) (l : List Nat) :
    bufIndexOfPair a b (a :: b :: l) = some 0 := by
  simp [bufIndexOfPair]

/-- Scanning past a prefix that never contains the needle's first byte. -/
theorem bufIndexOfPair_append {a b : Nat} :
    ∀ (g l : List Nat), (∀ x ∈ g, x ≠ a) →
      bufIndexOfPair a b (g ++ l) = (bufIndexOfPair a b l).map (· + g.length) := by
  intro g
  induction g with
  | nil =>
    intro l _
    cases h : bufIndexOfPair a b l <;> simp [h]
  | cons x t ih =>
    intro l hg
    have hx : x ≠ a := hg x (List.mem_cons_self x t)
    have ht : ∀ y ∈ t, y ≠ a := fun y hy => hg y (List.mem_cons_of_mem x hy)
    have heq := ih l ht
    match ht2 : t ++ l with
    | [] =>
      have : t = [] ∧ l = [] := List.append_eq_nil.mp ht2
      simp [this.1, this.2, bufIndexOfPair]
    | y :: rest =>
      rw [List.cons_append, ht2, bufIndexOfPair]
      rw [if_neg (fun hc => hx hc.1)]
      rw [← ht2, heq]
      cases h : bufIndexOfPair a b l <;> simp [h, List.length_cons] <;> omega

theorem bufIndexOfPair_none {a b : Nat} (g : List Nat) (hg : ∀ x ∈ g, x ≠ a) :
    bufIndexOfPair a b g = none := by
  have := bufIndexOfPair_append (a := a) (b := b) g [] hg
  simpa [bufIndexOfPair] using this

/-- A Group-1 direct-capture stream session (`jpegStreams` entry,
`main.js:1226-1236`), extended with the observable outputs of
`processJpegBuffer`: the frames pushed to every local subscriber
(`main.js:1396-1398`) and the frames forwarded upstream over the
`bridge:frame` channel (`main.js:1390-1393`). A fresh session starts with
an empty buffer, no last frame and zero timestamps. -/
structure StreamData where
  buffer : List Nat
  lastFrame : Option (List Nat)
  lastFrameTime : Nat
  frameCount : Nat
  lastSendTime : Nat
  deliveredToClients : List (List Nat)
  sentUpstream : List (List Nat)
deriving DecidableEq, Repr

/-- `processJpegBuffer` (`main.js:1344-1401`): repeatedly scan for
`FF D8`, discard anything before it, scan for `FF D9` from offset 2,
extract the frame including both markers; a frame longer than 100 bytes
becomes the session's last frame, is forwarded upstream when the API
socket is connected and at most once per 200 ms, and is pushed to every
local subscriber. Without a start marker the buffer is emptied; without an
end marker the (already trimmed) buffer is kept for more data. -/
def processJpegBuffer (now : Nat) (apiConnected : Bool) (sd : StreamData) : StreamData :=
  match h1 : bufIndexOfPair 255 216 sd.buffer with
  | none => { sd with buffer := [] }
  | some startIdx =>
    let buf1 := sd.buffer.drop startIdx
    match h2 : bufIndexOfPair 255 217 (buf1.drop 2) with
    | none => { sd with buffer := buf1 }
    | some j =>
      let endIdx := j + 2
      let jpegData := buf1.take (endIdx + 2)
      let rest := buf1.drop (endIdx + 2)
      if 100 < jpegData.length then
        let sd1 : StreamData :=
          { sd with
            buffer := rest
            lastFrame := some jpegData
            lastFrameTime := now
            frameCount := sd.frameCount + 1 }
        let sd2 : StreamData :=
          if apiConnected ∧ 200 ≤ now - sd1.lastSendTime then
            { sd1 with lastSendTime := now, sentUpstream := sd1.sentUpstream ++ [jpegData] }
          else sd1
        processJpegBuffer now apiConnected
          { sd2 with deliveredToClients := sd2.deliveredToClients ++ [jpegData] }
      else
        processJpegBuffer now apiConnected { sd with buffer := rest }
termination_by sd.buffer.length
decreasing_by
  all_goals
    have hb1 := bufIndexOfPair_bound h1
    have hb2 := bufIndexOfPair_bound h2
    simp only [List.length_drop] at hb2 ⊢
    first
      | omega
      | (split
         all_goals simp only [List.length_drop]
         all_goals omega)

/-- A Group-2 relay session: the `rtspFrameRelays` entry
(`main.js:1601-1610`) together with the `jpegStreams` entry it writes
through (`main.js:1724-1729`) and the observable subscriber/upstream
outputs of `processRtspFrameBuffer`. -/
structure RelayData where
  buffer : List Nat
  lastFrameTime : Nat
  frameCount : Nat
  lastSendTime : Nat
  streamLastFrame : Option (List Nat)
  streamLastFrameTime : Nat
  deliveredToClients : List (List Nat)
  sentUpstream : List (List Nat)
deriving DecidableEq, Repr

/-- `processRtspFrameBuffer` (`main.js:1699-1746`): same marker scan and
100-byte minimum as `processJpegBuffer`, but after recording
`lastFrameTime`/`frameCount` a frame arriving less than 200 ms after the
previous send is skipped entirely (`continue`, `main.js:1720`); only an
unthrottled frame is stored as the stream's last frame, pushed to local
subscribers and forwarded upstream. -/
def processRtspFrameBuffer (now : Nat) (apiConnected : Bool) (rd : RelayData) : RelayData :=
  match h1 : bufIndexOfPair 255 216 rd.buffer with
  | none => { rd with buffer := [] }
  | some startIdx =>
    let buf1 := rd.buffer.drop startIdx
    match h2 : bufIndexOfPair 255 217 (buf1.drop 2) with
    | none => { rd with buffer := buf1 }
    | some j =>
      let endIdx := j + 2
      let jpegData := buf1.take (endIdx + 2)
      let rest := buf1.drop (endIdx + 2)
      if 100 < jpegData.length then
        let rd1 : RelayData :=
          { rd with
            buffer := rest
            lastFrameTime := now
            frameCount := rd.frameCount + 1 }
        if now - rd1.lastSendTime < 200 then
          processRtspFrameBuffer now apiConnected rd1
        else
          let rd2 : RelayData :=
            { rd1 with
              lastSendTime := now
              streamLastFrame := some jpegData
              streamLastFrameTime := now
              deliveredToClients := rd1.deliveredToClients ++ [jpegData] }
          let rd3 : RelayData :=
            if apiConnected then
              { rd2 with sentUpstream := rd2.sentUpstream ++ [jpegData] }
            else rd2
          processRtspFrameBuffer now apiConnected rd3
      else
        processRtspFrameBuffer now apiConnected { rd with buffer := rest }
termination_by rd.buffer.length
decreasing_by
  all_goals
    have hb1 := bufIndexOfPair_bound h1
    have hb2 := bufIndexOfPair_bound h2
    simp only [List.length_drop] at hb2 ⊢
    first
      | omega
      | (split
         all_goals simp only [List.length_drop]
         all_goals omega)

theorem processJpegBuffer_noStart (now : Nat) (api : Bool) (sd : StreamData)
    (h : bufIndexOfPair 255 216 sd.buffer = none) :
    processJpegBuffer now api sd = { sd with buffer := [] } := by
  rw [processJpegBuffer]
  split
  · rfl
  · rename_i startIdx h1
    rw [h] at h1
    cases h1

theorem processJpegBuffer_noEnd (now : Nat) (api : Bool) (sd : StreamData) (startIdx : Nat)
    (h1 : bufIndexOfPair 255 216 sd.buffer = some startIdx)
    (h2 : bufIndexOfPair 255 217 ((sd.buffer.drop startIdx).drop 2) = none) :
    processJpegBuffer now api sd = { sd with buffer := sd.buffer.drop startIdx } := by
  rw [processJpegBuffer]
  split
  · rename_i h1'
    rw [h1] at h1'
    cases h1'
  · rename_i s h1'
    rw [h1] at h1'
    injection h1' with hs
    subst hs
    dsimp only
    split
    · rfl
    · rename_i j h2'
      rw [h2] at h2'
      cases h2'

theorem processJpegBuffer_frameStep (now : Nat) (api : Bool) (sd : StreamData) (startIdx j : Nat)
    (h1 : bufIndexOfPair 255 216 sd.buffer = some startIdx)
    (h2 : bufIndexOfPair 255 217 ((sd.buffer.drop startIdx).drop 2) = some j) :
    processJpegBuffer now api sd =
      (let buf1 := sd.buffer.drop startIdx
       let jpegData := buf1.take (j + 2 + 2)
       let rest := buf1.drop (j + 2 + 2)
       if 100 < jpegData.length then
         let sd1 : StreamData :=
           { sd with
             buffer := rest
             lastFrame := some jpegData
             lastFrameTime := now
             frameCount := sd.frameCount + 1 }
         let sd2 : StreamData :=
           if api ∧ 200 ≤ now - sd1.lastSendTime then
             { sd1 with lastSendTime := now, sentUpstream := sd1.sentUpstream ++ [jpegData] }
           else sd1
         processJpegBuffer now api
           { sd2 with deliveredToClients := sd2.deliveredToClients ++ [jpegData] }
       else processJpegBuffer now api { sd with buffer := rest }) := by
  rw [processJpegBuffer]
  split
  · rename_i h1'
    rw [h1] at h1'
    cases h1'
  · rename_i s h1'
    rw [h1] at h1'
    injection h1' with hs
    subst hs
    dsimp only
    split
    · rename_i h2'
      rw [h2] at h2'
      cases h2'
    · rename_i jj h2'
      rw [h2] at h2'
      injection h2' with hj
      subst hj
      rfl

theorem processRtspFrameBuffer_noStart (now : Nat) (api : Bool) (rd : RelayData)
    (h : bufIndexOfPair 255 216 rd.buffer = none) :
    processRtspFrameBuffer now api rd = { rd with buffer := [] } := by
  rw [processRtspFrameBuffer]
  split
  · rfl
  · rename_i startIdx h1
    rw [h] at h1
    cases h1

theorem processRtspFrameBuffer_noEnd (now : Nat) (api : Bool) (rd : RelayData) (startIdx : Nat)
    (h1 : bufIndexOfPair 255 216 rd.buffer = some startIdx)
    (h2 : bufIndexOfPair 255 217 ((rd.buffer.drop startIdx).drop 2) = none) :
    processRtspFrameBuffer now api rd = { rd with buffer := rd.buffer.drop startIdx } := by
  rw [processRtspFrameBuffer]
  split
  · rename_i h1'
    rw [h1] at h1'
    cases h1'
  · rename_i s h1'
    rw [h1] at h1'
    injection h1' with hs
    subst hs
    dsimp only
    split
    · rfl
    · rename_i j h2'
      rw [h2] at h2'
      cases h2'

theorem processRtspFrameBuffer_frameStep (now : Nat) (api : Bool) (rd : RelayData) (startIdx j : Nat)
    (h1 : bufIndexOfPair 255 216 rd.buffer = some startIdx)
    (h2 : bufIndexOfPair 255 217 ((rd.buffer.drop startIdx).drop 2) = some j) :
    processRtspFrameBuffer now api rd =
      (let buf1 := rd.buffer.drop startIdx
       let jpegData := buf1.take (j + 2 + 2)
       let rest := buf1.drop (j + 2 + 2)
       if 100 < jpegData.length then
         let rd1 : RelayData :=
           { rd with
             buffer := rest
             lastFrameTime := now
             frameCount := rd.frameCount + 1 }
         if now - rd1.lastSendTime < 200 then
           processRtspFrameBuffer now api rd1
         else
           let rd2 : RelayData :=
             { rd1 with
               lastSendTime := now
               streamLastFrame := some jpegData
               streamLastFrameTime := now
               deliveredToClients := rd1.deliveredToClients ++ [jpegData] }
           let rd3 : RelayData :=
             if api then
               { rd2 with sentUpstream := rd2.sentUpstream ++ [jpegData] }
             else rd2
           processRtspFrameBuffer now api rd3
       else processRtspFrameBuffer now api { rd with buffer := rest }) := by
  rw [processRtspFrameBuffer]
  split
  · rename_i h1'
    rw [h1] at h1'
    cases h1'
  · rename_i s h1'
    rw [h1] at h1'
    injection h1' with hs
    subst hs
    dsimp only
    split
    · rename_i h2'
      rw [h2] at h2'
      cases h2'
    · rename_i jj h2'
      rw [h2] at h2'
      injection h2' with hj
      subst hj
      rfl

/-- Fresh stream session state (`main.js:1226-1236`) with a given buffer
content: no last frame, zero timestamps/counters, no outputs yet. -/
def initialStreamData (buffer : List Nat) : StreamData :=
  { buffer := buffer
    lastFrame := none
    lastFrameTime := 0
    frameCount := 0
    lastSendTime := 0
    deliveredToClients := []
    sentUpstream := [] }

theorem bufIndexOfPair_atMarker (g X : List Nat) (b : Nat) (hg : ∀ x ∈ g, x ≠ 255) :
    bufIndexOfPair 255 b (g ++ 255 :: b :: X) = some g.length := by
  rw [bufIndexOfPair_append g _ hg, bufIndexOfPair_cons2]
  simp

theorem jpegExtract_full (g1 body g2 : List Nat) (now : Nat) (api : Bool)
    (hg1 : ∀ x ∈ g1, x ≠ 255) (hbody : ∀ x ∈ body, x ≠ 255) (hg2 : ∀ x ∈ g2, x ≠ 255)
    (hlen : 100 < body.length + 4) :
    (processJpegBuffer now api
        (initialStreamData (g1 ++ [255, 216] ++ body ++ [255, 217] ++ g2))).deliveredToClients
        = [[255, 216] ++ body ++ [255, 217]]
      ∧ (processJpegBuffer now api
          (initialStreamData (g1 ++ [255, 216] ++ body ++ [255, 217] ++ g2))).lastFrame
          = some ([255, 216] ++ body ++ [255, 217])
      ∧ (processJpegBuffer now api
          (initialStreamData (g1 ++ [255, 216] ++ body ++ [255, 217] ++ g2))).buffer = [] := by
  have hA : g1 ++ [255, 216] ++ body ++ [255, 217] ++ g2
      = g1 ++ 255 :: 216 :: (body ++ 255 :: 217 :: g2) := by
    simp [List.append_assoc]
  have h1 : bufIndexOfPair 255 216 (initialStreamData (g1 ++ [255, 216] ++ body ++ [255, 217] ++ g2)).buffer
      = some g1.length := by
    show bufIndexOfPair 255 216 (g1 ++ [255, 216] ++ body ++ [255, 217] ++ g2) = some g1.length
    rw [hA]
    exact bufIndexOfPair_atMarker g1 _ 216 hg1
  have hdrop : ((initialStreamData (g1 ++ [255, 216] ++ body ++ [255, 217] ++ g2)).buffer.drop g1.length)
      = 255 :: 216 :: (body ++ 255 :: 217 :: g2) := by
    show ((g1 ++ [255, 216] ++ body ++ [255, 217] ++ g2).drop g1.length) = _
    rw [hA]
    exact List.drop_left g1 _
  have h2 : bufIndexOfPair 255 217
      (((initialStreamData (g1 ++ [255, 216] ++ body ++ [255, 217] ++ g2)).buffer.drop g1.length).drop 2)
      = some body.length := by
    rw [hdrop]
    show bufIndexOfPair 255 217 (body ++ 255 :: 217 :: g2) = some body.length
    exact bufIndexOfPair_atMarker body g2 217 hbody
  have htake : (255 :: 216 :: (body ++ 255 :: 217 :: g2)).take (body.length + 2 + 2)
      = [255, 216] ++ body ++ [255, 217] := by
    have hsh : (255 : Nat) :: 216 :: (body ++ 255 :: 217 :: g2)
        = ([255, 216] ++ body ++ [255, 217]) ++ g2 := by
      simp [List.append_assoc]
    rw [hsh]
    exact List.take_left' (by simp)
  have hrest : (255 :: 216 :: (body ++ 255 :: 217 :: g2)).drop (body.length + 2 + 2) = g2 := by
    have hsh : (255 : Nat) :: 216 :: (body ++ 255 :: 217 :: g2)
        = ([255, 216] ++ body ++ [255, 217]) ++ g2 := by
      simp [List.append_assoc]
    rw [hsh]
    exact List.drop_left' (by simp)
  rw [processJpegBuffer_frameStep now api _ g1.length body.length h1 h2]
  dsimp only
  rw [hdrop, htake, hrest]
  rw [if_pos (by simpa using hlen)]
  refine ?_
  split
  all_goals
    rw [processJpegBuffer_noStart now api _ (by dsimp only; exact bufIndexOfPair_none g2 hg2)]
    simp [initialStreamData]

theorem jpegExtract_noEndMarker (g1 body : List Nat) (now : Nat) (api : Bool)
    (hg1 : ∀ x ∈ g1, x ≠ 255) (hbody : ∀ x ∈ body, x ≠ 255) :
    processJpegBuffer now api (initialStreamData (g1 ++ [255, 216] ++ body))
      = { initialStreamData (g1 ++ [255, 216] ++ body) with buffer := [255, 216] ++ body } := by
  have hA : g1 ++ [255, 216] ++ body = g1 ++ 255 :: 216 :: body := by
    simp [List.append_assoc]
  have h1 : bufIndexOfPair 255 216 (initialStreamData (g1 ++ [255, 216] ++ body)).buffer
      = some g1.length := by
    show bufIndexOfPair 255 216 (g1 ++ [255, 216] ++ body) = some g1.length
    rw [hA]
    exact bufIndexOfPair_atMarker g1 body 216 hg1
  have hdrop : ((initialStreamData (g1 ++ [255, 216] ++ body)).buffer.drop g1.length)
      = 255 :: 216 :: body := by
    show ((g1 ++ [255, 216] ++ body).drop g1.length) = _
    rw [hA]
    exact List.drop_left g1 _
  have h2 : bufIndexOfPair 255 217
      (((initialStreamData (g1 ++ [255, 216] ++ body)).buffer.drop g1.length).drop 2) = none := by
    rw [hdrop]
    show bufIndexOfPair 255 217 body = none
    exact bufIndexOfPair_none body hbody
  rw [processJpegBuffer_noEnd now api _ g1.length h1 h2, hdrop]
  rfl

theorem jpegExtract_shortFrame (g1 body g2 : List Nat) (now : Nat) (api : Bool)
    (hg1 : ∀ x ∈ g1, x ≠ 255) (hbody : ∀ x ∈ body, x ≠ 255) (hg2 : ∀ x ∈ g2, x ≠ 255)
    (hlen : body.length + 4 ≤ 100) :
    processJpegBuffer now api
        (initialStreamData (g1 ++ [255, 216] ++ body ++ [255, 217] ++ g2))
      = { initialStreamData (g1 ++ [255, 216] ++ body ++ [255, 217] ++ g2) with buffer := [] } := by
  have hA : g1 ++ [255, 216] ++ body ++ [255, 217] ++ g2
      = g1 ++ 255 :: 216 :: (body ++ 255 :: 217 :: g2) := by
    simp [List.append_assoc]
  have h1 : bufIndexOfPair 255 216
      (initialStreamData (g1 ++ [255, 216] ++ body ++ [255, 217] ++ g2)).buffer
      = some g1.length := by
    show bufIndexOfPair 255 216 (g1 ++ [255, 216] ++ body ++ [255, 217] ++ g2) = some g1.length
    rw [hA]
    exact bufIndexOfPair_atMarker g1 _ 216 hg1
  have hdrop : ((initialStreamData (g1 ++ [255, 216] ++ body ++ [255, 217] ++ g2)).buffer.drop g1.length)
      = 255 :: 216 :: (body ++ 255 :: 217 :: g2) := by
    show ((g1 ++ [255, 216] ++ body ++ [255, 217] ++ g2).drop g1.length) = _
    rw [hA]
    exact List.drop_left g1 _
  have h2 : bufIndexOfPair 255 217
      (((initialStreamData (g1 ++ [255, 216] ++ body ++ [255, 217] ++ g2)).buffer.drop g1.length).drop 2)
      = some body.length := by
    rw [hdrop]
    show bufIndexOfPair 255 217 (body ++ 255 :: 217 :: g2) = some body.length
    exact bufIndexOfPair_atMarker body g2 217 hbody
  have htake : (255 :: 216 :: (body ++ 255 :: 217 :: g2)).take (body.length + 2 + 2)
      = [255, 216] ++ body ++ [255, 217] := by
    have hsh : (255 : Nat) :: 216 :: (body ++ 255 :: 217 :: g2)
        = ([255, 216] ++ body ++ [255, 217]) ++ g2 := by
      simp [List.append_assoc]
    rw [hsh]
    exact List.take_left' (by simp)
  have hrest : (255 :: 216 :: (body ++ 255 :: 217 :: g2)).drop (body.length + 2 + 2) = g2 := by
    have hsh : (255 : Nat) :: 216 :: (body ++ 255 :: 217 :: g2)
        = ([255, 216] ++ body ++ [255, 217]) ++ g2 := by
      simp [List.append_assoc]
    rw [hsh]
    exact List.drop_left' (by simp)
  rw [processJpegBuffer_frameStep now api _ g1.length body.length h1 h2]
  dsimp only
  rw [hdrop, htake, hrest]
  rw [if_neg (by simp; omega)]
  rw [processJpegBuffer_noStart now api _ (by dsimp only; exact bufIndexOfPair_none g2 hg2)]

/-- C5: For the camera frame extractor `processJpegBuffer`: a buffer of
marker-free garbage, then the start marker `FF D8`, then marker-free body
bytes, then the end marker `FF D9`, then marker-free garbage produces
exactly one frame spanning start through end marker inclusive (stored as
the last frame and delivered to local subscribers) and discards the
garbage before and after; a buffer holding a start marker with no
following end marker yields zero frames and keeps the trimmed buffer to
wait for more data; and an extracted frame of at most 100 bytes (in
particular any frame shorter than 100 bytes) is rejected as noise: not
stored, not delivered. Marker-free is modelled as containing no `0xFF`
byte. -/
theorem c5_frame_extraction (g1 body g2 : List Nat) (now : Nat) (api : Bool)
    (hg1 : ∀ x ∈ g1, x ≠ 255) (hbody : ∀ x ∈ body, x ≠ 255) (hg2 : ∀ x ∈ g2, x ≠ 255) :
    (100 < body.length + 4 →
      (processJpegBuffer now api
          (initialStreamData (g1 ++ [255, 216] ++ body ++ [255, 217] ++ g2))).deliveredToClients
          = [[255, 216] ++ body ++ [255, 217]]
        ∧ (processJpegBuffer now api
            (initialStreamData (g1 ++ [255, 216] ++ body ++ [255, 217] ++ g2))).lastFrame
            = some ([255, 216] ++ body ++ [255, 217])
        ∧ (processJpegBuffer now api
            (initialStreamData (g1 ++ [255, 216] ++ body ++ [255, 217] ++ g2))).buffer = [])
    ∧ processJpegBuffer now api (initialStreamData (g1 ++ [255, 216] ++ body))
        = { initialStreamData (g1 ++ [255, 216] ++ body) with buffer := [255, 216] ++ body }
    ∧ (body.length + 4 ≤ 100 →
        processJpegBuffer now api
            (initialStreamData (g1 ++ [255, 216] ++ body ++ [255, 217] ++ g2))
          = { initialStreamData (g1 ++ [255, 216] ++ body ++ [255, 217] ++ g2) with
              buffer := [] }) :=
  ⟨fun hlen => jpegExtract_full g1 body g2 now api hg1 hbody hg2 hlen,
   jpegExtract_noEndMarker g1 body now api hg1 hbody,
   fun hlen => jpegExtract_shortFrame g1 body g2 now api hg1 hbody hg2 hlen⟩

/-- Witness for `c5_frame_extraction` at a concrete input: garbage
`[0, 1]`, a 101-byte body of `7`s, trailing garbage `[9]`. -/
theorem c5_frame_extraction_witness :
    (processJpegBuffer 1000 true
        (initialStreamData ([0, 1] ++ [255, 216] ++ List.replicate 101 7 ++ [255, 217] ++ [9]))).deliveredToClients
      = [[255, 216] ++ List.replicate 101 7 ++ [255, 217]] :=
  ((c5_frame_extraction [0, 1] (List.replicate 101 7) [9] 1000 true
    (by decide) (by decide) (by decide)).1 (by decide)).1

/-- A complete JPEG frame: start marker, body, end marker. -/
def jpegFrame (body : List Nat) : List Nat :=
  [255, 216] ++ body ++ [255, 217]

/-- Fresh relay session state (`main.js:1601-1610` together with the
`jpegStreams` entry it creates at `main.js:1724-1726`). -/
def initialRelayData (buffer : List Nat) : RelayData :=
  { buffer := buffer
    lastFrameTime := 0
    frameCount := 0
    lastSendTime := 0
    streamLastFrame := none
    streamLastFrameTime := 0
    deliveredToClients := []
    sentUpstream := [] }

theorem direct_twoFrames (b1 b2 : List Nat) (now : Nat)
    (hb1 : ∀ x ∈ b1, x ≠ 255) (hb2 : ∀ x ∈ b2, x ≠ 255)
    (hl1 : 100 < b1.length + 4) (hl2 : 100 < b2.length + 4) (hnow : 200 ≤ now) :
    processJpegBuffer now true (initialStreamData (jpegFrame b1 ++ jpegFrame b2))
      = { buffer := []
          lastFrame := some (jpegFrame b2)
          lastFrameTime := now
          frameCount := 2
          lastSendTime := now
          deliveredToClients := [jpegFrame b1, jpegFrame b2]
          sentUpstream := [jpegFrame b1] } := by
  have hB : jpegFrame b1 ++ jpegFrame b2
      = 255 :: 216 :: (b1 ++ 255 :: 217 :: jpegFrame b2) := by
    simp [jpegFrame, List.append_assoc]
  have h1 : bufIndexOfPair 255 216 (initialStreamData (jpegFrame b1 ++ jpegFrame b2)).buffer
      = some 0 := by
    show bufIndexOfPair 255 216 (jpegFrame b1 ++ jpegFrame b2) = some 0
    rw [hB]
    exact bufIndexOfPair_cons2 255 216 _
  have hdrop0 : ((initialStreamData (jpegFrame b1 ++ jpegFrame b2)).buffer.drop 0)
      = 255 :: 216 :: (b1 ++ 255 :: 217 :: jpegFrame b2) := by
    show ((jpegFrame b1 ++ jpegFrame b2).drop 0) = _
    rw [List.drop_zero, hB]
  have h2 : bufIndexOfPair 255 217
      (((initialStreamData (jpegFrame b1 ++ jpegFrame b2)).buffer.drop 0).drop 2)
      = some b1.length := by
    rw [hdrop0]
    exact bufIndexOfPair_atMarker b1 _ 217 hb1
  have htake : (255 :: 216 :: (b1 ++ 255 :: 217 :: jpegFrame b2)).take (b1.length + 2 + 2)
      = jpegFrame b1 := by
    have hsh : (255 : Nat) :: 216 :: (b1 ++ 255 :: 217 :: jpegFrame b2)
        = jpegFrame b1 ++ jpegFrame b2 := hB.symm
    rw [hsh]
    exact List.take_left' (by simp [jpegFrame])
  have hrest : (255 :: 216 :: (b1 ++ 255 :: 217 :: jpegFrame b2)).drop (b1.length + 2 + 2)
      = jpegFrame b2 := by
    rw [hB.symm]
    exact List.drop_left' (by simp [jpegFrame])
  rw [processJpegBuffer_frameStep now true _ 0 b1.length h1 h2]
  dsimp only
  rw [hdrop0, htake, hrest]
  rw [if_pos (by simp [jpegFrame]; omega)]
  rw [if_pos (by exact ⟨rfl, by simp [initialStreamData]; omega⟩)]
  dsimp only [initialStreamData]
  -- second frame
  have hB2 : jpegFrame b2 = 255 :: 216 :: (b2 ++ 255 :: 217 :: ([] : List Nat)) := by
    simp [jpegFrame]
  have h1b : bufIndexOfPair 255 216 (jpegFrame b2) = some 0 := by
    rw [hB2]
    exact bufIndexOfPair_cons2 255 216 _
  have h2b : bufIndexOfPair 255 217 (((jpegFrame b2).drop 0).drop 2) = some b2.length := by
    rw [List.drop_zero, hB2]
    exact bufIndexOfPair_atMarker b2 [] 217 hb2
  have htake2 : ((jpegFrame b2).drop 0).take (b2.length + 2 + 2) = jpegFrame b2 := by
    rw [List.drop_zero]
    conv_lhs => rw [(List.append_nil (jpegFrame b2)).symm]
    exact List.take_left' (by simp [jpegFrame])
  have hrest2 : ((jpegFrame b2).drop 0).drop (b2.length + 2 + 2) = [] := by
    rw [List.drop_zero]
    conv_lhs => rw [(List.append_nil (jpegFrame b2)).symm]
    exact List.drop_left' (by simp [jpegFrame])
  rw [processJpegBuffer_frameStep now true _ 0 b2.length h1b h2b]
  dsimp only
  rw [htake2, hrest2]
  rw [if_pos (by simp [jpegFrame]; omega)]
  rw [if_neg (by simp)]
  rw [processJpegBuffer_noStart now true _ (by rfl)]
  simp

theorem relay_twoFrames (b1 b2 : List Nat) (now : Nat)
    (hb1 : ∀ x ∈ b1, x ≠ 255) (hb2 : ∀ x ∈ b2, x ≠ 255)
    (hl1 : 100 < b1.length + 4) (hl2 : 100 < b2.length + 4) (hnow : 200 ≤ now) :
    processRtspFrameBuffer now true (initialRelayData (jpegFrame b1 ++ jpegFrame b2))
      = { buffer := []
          lastFrameTime := now
          frameCount := 2
          lastSendTime := now
          streamLastFrame := some (jpegFrame b1)
          streamLastFrameTime := now
          deliveredToClients := [jpegFrame b1]
          sentUpstream := [jpegFrame b1] } := by
  have hB : jpegFrame b1 ++ jpegFrame b2
      = 255 :: 216 :: (b1 ++ 255 :: 217 :: jpegFrame b2) := by
    simp [jpegFrame, List.append_assoc]
  have h1 : bufIndexOfPair 255 216 (initialRelayData (jpegFrame b1 ++ jpegFrame b2)).buffer
      = some 0 := by
    show bufIndexOfPair 255 216 (jpegFrame b1 ++ jpegFrame b2) = some 0
    rw [hB]
    exact bufIndexOfPair_cons2 255 216 _
  have hdrop0 : ((initialRelayData (jpegFrame b1 ++ jpegFrame b2)).buffer.drop 0)
      = 255 :: 216 :: (b1 ++ 255 :: 217 :: jpegFrame b2) := by
    show ((jpegFrame b1 ++ jpegFrame b2).drop 0) = _
    rw [List.drop_zero, hB]
  have h2 : bufIndexOfPair 255 217
      (((initialRelayData (jpegFrame b1 ++ jpegFrame b2)).buffer.drop 0).drop 2)
      = some b1.length := by
    rw [hdrop0]
    exact bufIndexOfPair_atMarker b1 _ 217 hb1
  have htake : (255 :: 216 :: (b1 ++ 255 :: 217 :: jpegFrame b2)).take (b1.length + 2 + 2)
      = jpegFrame b1 := by
    rw [hB.symm]
    exact List.take_left' (by simp [jpegFrame])
  have hrest : (255 :: 216 :: (b1 ++ 255 :: 217 :: jpegFrame b2)).drop (b1.length + 2 + 2)
      = jpegFrame b2 := by
    rw [hB.symm]
    exact List.drop_left' (by simp [jpegFrame])
  rw [processRtspFrameBuffer_frameStep now true _ 0 b1.length h1 h2]
  dsimp only
  rw [hdrop0, htake, hrest]
  rw [if_pos (by simp [jpegFrame]; omega)]
  rw [if_neg (by simp [initialRelayData]; omega)]
  rw [if_pos rfl]
  dsimp only [initialRelayData]
  -- second frame is throttled away by the relay path
  have hB2 : jpegFrame b2 = 255 :: 216 :: (b2 ++ 255 :: 217 :: ([] : List Nat)) := by
    simp [jpegFrame]
  have h1b : bufIndexOfPair 255 216 (jpegFrame b2) = some 0 := by
    rw [hB2]
    exact bufIndexOfPair_cons2 255 216 _
  have h2b : bufIndexOfPair 255 217 (((jpegFrame b2).drop 0).drop 2) = some b2.length := by
    rw [List.drop_zero, hB2]
    exact bufIndexOfPair_atMarker b2 [] 217 hb2
  have htake2 : ((jpegFrame b2).drop 0).take (b2.length + 2 + 2) = jpegFrame b2 := by
    rw [List.drop_zero]
    conv_lhs => rw [(List.append_nil (jpegFrame b2)).symm]
    exact List.take_left' (by simp [jpegFrame])
  have hrest2 : ((jpegFrame b2).drop 0).drop (b2.length + 2 + 2) = [] := by
    rw [List.drop_zero]
    conv_lhs => rw [(List.append_nil (jpegFrame b2)).symm]
    exact List.drop_left' (by simp [jpegFrame])
  rw [processRtspFrameBuffer_frameStep now true _ 0 b2.length h1b h2b]
  dsimp only
  rw [htake2, hrest2]
  rw [if_pos (by simp [jpegFrame]; omega)]
  rw [if_pos (by simp)]
  rw [processRtspFrameBuffer_noStart now true _ (by rfl)]
  simp

theorem relayUpstreamAux (n : Nat) :
    ∀ (buf : List Nat), buf.length ≤ n →
    ∀ (now ls lftD fcD lftR fcR slft : Nat) (lfD slf : Option (List Nat))
      (dD dR sent : List (List Nat)),
      ((processJpegBuffer now true
          { buffer := buf, lastFrame := lfD, lastFrameTime := lftD, frameCount := fcD,
            lastSendTime := ls, deliveredToClients := dD, sentUpstream := sent }).sentUpstream
        = (processRtspFrameBuffer now true
          { buffer := buf, lastFrameTime := lftR, frameCount := fcR, lastSendTime := ls,
            streamLastFrame := slf, streamLastFrameTime := slft,
            deliveredToClients := dR, sentUpstream := sent }).sentUpstream)
      ∧ ((processJpegBuffer now true
          { buffer := buf, lastFrame := lfD, lastFrameTime := lftD, frameCount := fcD,
            lastSendTime := ls, deliveredToClients := dD, sentUpstream := sent }).buffer
        = (processRtspFrameBuffer now true
          { buffer := buf, lastFrameTime := lftR, frameCount := fcR, lastSendTime := ls,
            streamLastFrame := slf, streamLastFrameTime := slft,
            deliveredToClients := dR, sentUpstream := sent }).buffer) := by
  induction n with
  | zero =>
    intro buf hlen now ls lftD fcD lftR fcR slft lfD slf dD dR sent
    have hb : buf = [] := List.length_eq_zero.mp (Nat.le_zero.mp hlen)
    subst hb
    rw [processJpegBuffer_noStart now true _ (by rfl), processRtspFrameBuffer_noStart now true _ (by rfl)]
    exact ⟨rfl, rfl⟩
  | succ n ih =>
    intro buf hlen now ls lftD fcD lftR fcR slft lfD slf dD dR sent
    cases h1 : bufIndexOfPair 255 216 buf with
    | none =>
      rw [processJpegBuffer_noStart now true _ h1, processRtspFrameBuffer_noStart now true _ h1]
      exact ⟨rfl, rfl⟩
    | some s =>
      cases h2 : bufIndexOfPair 255 217 ((buf.drop s).drop 2) with
      | none =>
        rw [processJpegBuffer_noEnd now true _ s h1 h2,
            processRtspFrameBuffer_noEnd now true _ s h1 h2]
        exact ⟨rfl, rfl⟩
      | some j =>
        have hbound1 := bufIndexOfPair_bound h1
        have hbound2 := bufIndexOfPair_bound h2
        have hrest : ((buf.drop s).drop (j + 2 + 2)).length ≤ n := by
          simp only [List.length_drop] at hbound2 ⊢
          omega
        rw [processJpegBuffer_frameStep now true _ s j h1 h2,
            processRtspFrameBuffer_frameStep now true _ s j h1 h2]
        dsimp only
        by_cases hv : 100 < ((buf.drop s).take (j + 2 + 2)).length
        · rw [if_pos hv, if_pos hv]
          by_cases hth : now - ls < 200
          · rw [if_neg (by simp; omega), if_pos hth]
            exact ih _ hrest now ls now (fcD + 1) now (fcR + 1) slft
              (some ((buf.drop s).take (j + 2 + 2))) slf
              (dD ++ [(buf.drop s).take (j + 2 + 2)]) dR sent
          · rw [if_pos ⟨rfl, by omega⟩, if_neg hth, if_pos rfl]
            exact ih _ hrest now now now (fcD + 1) now (fcR + 1) now
              (some ((buf.drop s).take (j + 2 + 2)))
              (some ((buf.drop s).take (j + 2 + 2)))
              (dD ++ [(buf.drop s).take (j + 2 + 2)])
              (dR ++ [(buf.drop s).take (j + 2 + 2)])
              (sent ++ [(buf.drop s).take (j + 2 + 2)])
        · rw [if_neg hv, if_neg hv]
          exact ih _ hrest now ls lftD fcD lftR fcR slft lfD slf dD dR sent

/-- C8 (amended): on the same input byte stream, with the API socket
connected and starting from the same buffer content, send throttle state
and already-sent upstream list, the Relay Capture path
(`processRtspFrameBuffer`) applies the identical frame-extraction and
minimum-size logic as the Direct Capture path (`processJpegBuffer`) and
forwards exactly the same frames upstream under the same 200 ms throttle,
leaving the identical remaining buffer; however (see the counterexample)
the relay path also throttles the last-frame update and the local
subscriber delivery, which the direct path performs for every valid
frame. -/
theorem c8_relay_direct_upstream_eq (buf : List Nat) (now ls lftD fcD lftR fcR slft : Nat)
    (lfD slf : Option (List Nat)) (dD dR sent : List (List Nat)) :
    ((processJpegBuffer now true
        { buffer := buf, lastFrame := lfD, lastFrameTime := lftD, frameCount := fcD,
          lastSendTime := ls, deliveredToClients := dD, sentUpstream := sent }).sentUpstream
      = (processRtspFrameBuffer now true
        { buffer := buf, lastFrameTime := lftR, frameCount := fcR, lastSendTime := ls,
          streamLastFrame := slf, streamLastFrameTime := slft,
          deliveredToClients := dR, sentUpstream := sent }).sentUpstream)
    ∧ ((processJpegBuffer now true
        { buffer := buf, lastFrame := lfD, lastFrameTime := lftD, frameCount := fcD,
          lastSendTime := ls, deliveredToClients := dD, sentUpstream := sent }).buffer
      = (processRtspFrameBuffer now true
        { buffer := buf, lastFrameTime := lftR, frameCount := fcR, lastSendTime := ls,
          streamLastFrame := slf, streamLastFrameTime := slft,
          deliveredToClients := dR, sentUpstream := sent }).buffer) :=
  relayUpstreamAux buf.length buf le_rfl now ls lftD fcD lftR fcR slft lfD slf dD dR sent

/-- Counterexample to C8 as stated: two valid frames arriving in one chunk
(within the 200 ms window). The direct path stores the second frame as the
last frame and delivers both frames to local subscribers; the relay path
stores and delivers only the first. So the two paths do not store the same
last frame and do not deliver the same frames to local subscribers. -/
theorem c8_counterexample :
    (processJpegBuffer 1000 true
        (initialStreamData (jpegFrame (List.replicate 100 1) ++ jpegFrame (List.replicate 100 2)))).lastFrame
        = some (jpegFrame (List.replicate 100 2))
      ∧ (processRtspFrameBuffer 1000 true
          (initialRelayData (jpegFrame (List.replicate 100 1) ++ jpegFrame (List.replicate 100 2)))).streamLastFrame
          = some (jpegFrame (List.replicate 100 1))
      ∧ (processJpegBuffer 1000 true
          (initialStreamData (jpegFrame (List.replicate 100 1) ++ jpegFrame (List.replicate 100 2)))).deliveredToClients
          = [jpegFrame (List.replicate 100 1), jpegFrame (List.replicate 100 2)]
      ∧ (processRtspFrameBuffer 1000 true
          (initialRelayData (jpegFrame (List.replicate 100 1) ++ jpegFrame (List.replicate 100 2)))).deliveredToClients
          = [jpegFrame (List.replicate 100 1)]
      ∧ jpegFrame (List.replicate 100 1) ≠ jpegFrame (List.replicate 100 2) := by
  have hd := direct_twoFrames (List.replicate 100 1) (List.replicate 100 2) 1000
    (by decide) (by decide) (by decide) (by decide) (by decide)
  have hr := relay_twoFrames (List.replicate 100 1) (List.replicate 100 2) 1000
    (by decide) (by decide) (by decide) (by decide) (by decide)
  rw [hd, hr]
  refine ⟨rfl, rfl, rfl, rfl, by decide⟩

/-- C6: the bit-packed dual-temperature decoder `decodeTemp` maps a packed
32-bit value with current temperature in the low 16 bits and target in the
high 16 bits back to the pair (current, target); in particular
`0x00DC00AF` decodes to current 175, target 220, and `0` decodes to
(0, 0). -/
theorem c6_decode_temp :
    (∀ cur tgt : Nat, cur < 2 ^ 16 → tgt < 2 ^ 16 →
        decodeTemp (some (tgt * 2 ^ 16 + cur)) = (cur, tgt))
    ∧ decodeTemp (some 0x00DC00AF) = (175, 220)
    ∧ decodeTemp (some 0) = (0, 0) := by
  refine ⟨?_, by decide, by decide⟩
  intro cur tgt hc ht
  simp only [decodeTemp]
  split
  · rename_i h0
    have hcur : cur = 0 := by omega
    have htgt : tgt = 0 := by omega
    subst hcur
    subst htgt
    rfl
  · rw [Prod.mk.injEq]
    constructor
    · omega
    · omega

/-- Witness for `c6_decode_temp` at current 175, target 220. -/
theorem c6_decode_temp_witness :
    decodeTemp (some (220 * 2 ^ 16 + 175)) = (175, 220) :=
  c6_decode_temp.1 175 220 (by decide) (by decide)

/-- Counterexample to C7 as stated: the source computes
`Math.round((cmd.speed || 0) * 2.55)` in IEEE-754 double arithmetic, where
`50 * 2.55` evaluates to `127.49999999999999…`, strictly below `127.5`, so
the published native value for input 50 is 127, not `round(50 × 2.55) = 128`
as claimed. -/
theorem c7_counterexample :
    fanSpeedNative (some 50) = 127 ∧ fanSpeedNative (some 50) ≠ 128 := by
  have h := fanSpeedNative_eval (some 50)
  constructor
  · rw [h]
    decide
  · rw [h]
    decide

set_option maxRecDepth 4000 in
/-- C7 (amended): the fan-speed command converts the abstract 0-100 input
to the native 0-255 range by scaling with 2.55 in IEEE-754 double
arithmetic and rounding: input 0 yields 0, input 100 yields 255, and for
every input below 101 other than 50 and 90 the result agrees with exact
rounding of `s × 2.55` (written `(102·s + 20) / 40 = ⌊51·s/20 + 1/2⌋` in
integer arithmetic); at inputs 50 and 90 the double product falls just
below the rounding midpoint, yielding 127 (not 128) and 229 (not 230). -/
theorem c7_fan_scaling :
    fanSpeedNative (some 0) = 0
    ∧ fanSpeedNative (some 100) = 255
    ∧ fanSpeedNative (some 50) = 127
    ∧ fanSpeedNative (some 90) = 229
    ∧ (∀ s : Nat, s < 101 → s ≠ 50 → s ≠ 90 →
        fanSpeedNative (some s) = (((102 * s + 20) / 40 : Nat) : Int)) := by
  have hgen : ∀ s : Nat, s < 101 → s ≠ 50 → s ≠ 90 →
      ((2 * roundMantissa (s * double255Num) + 2 ^ 50) / 2 ^ 51 : Nat)
        = (102 * s + 20) / 40 := by decide
  refine ⟨?_, ?_, ?_, ?_, ?_⟩
  · rw [fanSpeedNative_eval]
    decide
  · rw [fanSpeedNative_eval]
    decide
  · rw [fanSpeedNative_eval]
    decide
  · rw [fanSpeedNative_eval]
    decide
  · intro s hs h50 h90
    rw [fanSpeedNative_eval]
    simp only [Option.getD_some]
    rw [hgen s hs h50 h90]

/-- Witness for `c7_fan_scaling` at input 25 (exact case: 25 × 2.55 =
63.75, rounding to 64). -/
theorem c7_fan_scaling_witness :
    fanSpeedNative (some 25) = (((102 * 25 + 20) / 40 : Nat) : Int) :=
  c7_fan_scaling.2.2.2.2 25 (by decide) (by decide) (by decide)

/-- A device "P1" with a live client and cached printer data, no pending
timer, fresh reconnect counter. -/
def demoSessionStart : SessionState :=
  { mqttClients := ["P1"]
    printerDataCache := ["P1"]
    printerReconnectTimers := []
    reconnectAttempts := [] }

/-- Iterated immediate connection failures: `k` successive MQTT `close`
events for the same device. -/
def closeIter (serial : String) (st : SessionState) : Nat → SessionState
  | 0 => st
  | k + 1 => onMqttClose (closeIter serial st k) serial

theorem closeIter_spec (k : Nat) :
    closeIter ("P1") demoSessionStart (k + 1)
      = { mqttClients := []
          printerDataCache := ["P1"]
          printerReconnectTimers := [("P1", reconnectDelay k)]
          reconnectAttempts := [("P1", k + 1)] } := by
  induction k with
  | zero =>
    show onMqttClose demoSessionStart ("P1") = _
    rfl
  | succ k ih =>
    show onMqttClose (closeIter ("P1") demoSessionStart (k + 1)) "P1" = _
    rw [ih]
    simp [onMqttClose, scheduleReconnect, setEntry, eraseEntry, removeSerial,
      insertSerial, List.lookup]

/-- C3: starting from a fresh reconnect counter, the delays scheduled for
repeated immediate connection failures of one device are exactly 5 s,
10 s, 20 s, 40 s, 80 s, 120 s, and 120 s for every later attempt (the cap
holds from the sixth delay on), and one successful open deletes the
counter so that the next failure is scheduled with 5 s again. -/
theorem c3_reconnect_backoff (k n : Nat) :
    (reconnectDelay 0 = 5000 ∧ reconnectDelay 1 = 10000 ∧ reconnectDelay 2 = 20000
      ∧ reconnectDelay 3 = 40000 ∧ reconnectDelay 4 = 80000 ∧ reconnectDelay 5 = 120000)
    ∧ reconnectDelay (5 + n) = 120000
    ∧ (closeIter ("P1") demoSessionStart (k + 1)).printerReconnectTimers.lookup ("P1")
        = some (reconnectDelay k)
    ∧ (onMqttConnect (closeIter ("P1") demoSessionStart (k + 1)) "P1").reconnectAttempts.lookup ("P1")
        = none
    ∧ (onMqttClose (onMqttConnect (closeIter ("P1") demoSessionStart (k + 1)) "P1")
        "P1").printerReconnectTimers.lookup ("P1") = some (reconnectDelay 0) := by
  refine ⟨by decide, ?_, ?_, ?_, ?_⟩
  · show min (5000 * 2 ^ (5 + n)) 120000 = 120000
    have h32 : 2 ^ 5 ≤ 2 ^ (5 + n) := Nat.pow_le_pow_right (by omega) (by omega)
    have : 120000 ≤ 5000 * 2 ^ (5 + n) := by
      calc 120000 ≤ 5000 * 2 ^ 5 := by omega
        _ ≤ 5000 * 2 ^ (5 + n) := Nat.mul_le_mul_left 5000 h32
    omega
  · rw [closeIter_spec k]
    rfl
  · rw [closeIter_spec k]
    rfl
  · rw [closeIter_spec k]
    simp [onMqttClose, onMqttConnect, resetReconnectCounter, scheduleReconnect,
      setEntry, eraseEntry, removeSerial, insertSerial, List.lookup]

/-- A device "P1" that is currently disconnected with a pending 5 s
reconnect timer and one recorded attempt, still cached. -/
def pendingReconnectState : SessionState :=
  { mqttClients := []
    printerDataCache := ["P1"]
    printerReconnectTimers := [("P1", 5000)]
    reconnectAttempts := [("P1", 1)] }

/-- C4 is violated by the code: the `printer:remove` handler neither
cancels a pending reconnect timer nor removes the cached printer data.
First conjunct: removing a connected device and then receiving the close
event of the client it just ended schedules a fresh 5 s reconnect timer —
a reconnect is scheduled after removal. Second conjunct: removing a device
that is currently offline with a pending timer changes nothing at all, so
the pending timer survives removal. Third conjunct: when that surviving
timer fires, the cached printer data is still present, the connect attempt
proceeds, and on success the removed device has a live client again. -/
theorem c4_remove_leaves_reconnect :
    ((onMqttClose (onPrinterRemove demoSessionStart "P1") "P1").printerReconnectTimers.lookup ("P1")
        = some 5000)
    ∧ onPrinterRemove pendingReconnectState ("P1") = pendingReconnectState
    ∧ ((onMqttConnect (onReconnectTimerFire pendingReconnectState "P1") "P1").mqttClients.contains ("P1")
        = true) := by
  refine ⟨?_, ?_, ?_⟩
  · decide
  · decide
  · decide

/-! ## Command translation (main.js:818-1103)

Payloads are modelled at the wire level: the argument of
`JSON.stringify` in `client.publish(topic, JSON.stringify(payload))`,
with the topic being `device/<serial>/request` for every publish.
`JSON.stringify` drops object properties whose value is `undefined`, so
object fields fed from absent command parameters are omitted. -/

/-- Wire-level JSON values. -/
inductive Json where
  | str (s : String)
  | num (n : Int)
  | bool (b : Bool)
  | arr (elems : List Json)
  | obj (fields : List (String × Json))
deriving BEq, Repr

/-- An optional object property: dropped from the wire payload when the
underlying command parameter is absent (JS `undefined`). -/
def jsField (name : String) (v : Option Json) : List (String × Json) :=
  match v with
  | some j => [(name, j)]
  | none => []

/-- Abstract command object as received over the API socket
(`printer:command`); every parameter is optional. Parameters that the
translator inspects are typed; parameters that are passed through
verbatim into the payload are kept as raw JSON values. -/
structure Cmd where
  type : String
  /-- Source property name is `on` (a reserved word in Lean). -/
  isOn : Option Bool := none
  temp : Option Int := none
  speed : Option Nat := none
  level : Option Int := none
  slot : Option Int := none
  trayId : Option Int := none
  gcode : Option String := none
  distance : Option Int := none
  axis : Option String := none
  calibrationType : Option String := none
  moduleName : Option Json := none
  control : Option Json := none
  printHalt : Option Bool := none
  soundEnable : Option Json := none
  autoRecovery : Option Json := none
  filamentTangleDetect : Option Json := none
  nozzleBlobDetect : Option Json := none
  airPrintDetect : Option Json := none
  amsId : Option Json := none
  duration : Option Json := none
  mode : Option Json := none
  startupReadOption : Option Json := none
  trayReadOption : Option Json := none
  param : Option Json := none
  slotId : Option Json := none
  objList : Option Json := none
  modeId : Option Json := none
  submode : Option Json := none
  nozzleDiameter : Option Json := none
  nozzleType : Option Json := none
  ledNode : Option Json := none
  onTime : Option Json := none
  offTime : Option Json := none
  trayType : Option String := none
  trayInfoIdx : Option String := none
  trayColor : Option Json := none
  nozzleTempMin : Option Json := none
  nozzleTempMax : Option Json := none

/-- The API delivers either a bare command-name string or a command
object; `main.js:827` coerces a string to an object with only a type. -/
inductive CommandInput where
  | strCmd (s : String)
  | objCmd (c : Cmd)

/-- Observable outcome of one `executeCommand` call: the wire payloads
published synchronously (in order), the follow-up payload published from
the success callback two seconds later (`main.js:1083-1087`), and whether
the per-client AMS debug flag was set (`main.js:1060`, the only client
state `executeCommand` mutates). -/
structure ExecResult where
  publishes : List Json
  delayedPublishes : List Json
  debugAmsFlagSet : Bool
deriving BEq, Repr

/-- Payload shape shared by all gcode-line commands
(`sequence_id` 2006 plus `user_id`, required by the firmware). -/
def gcodeLinePayload (param : String) : Json :=
  Json.obj [("print", Json.obj [("command", Json.str ("gcode_line")),
    ("sequence_id", Json.str ("2006")), ("param", Json.str param)]),
    ("user_id", Json.str ("1234567890"))]

/-- The ledctrl system-object fields used by the steady on/off light
commands (on-time 500, off-time 500, no looping). -/
def ledctrlFields (node mode : String) : List (String × Json) :=
  [("sequence_id", Json.str ("0")), ("command", Json.str ("ledctrl")),
   ("led_node", Json.str node), ("led_mode", Json.str mode),
   ("led_on_time", Json.num 500), ("led_off_time", Json.num 500),
   ("loop_times", Json.num 0), ("interval_time", Json.num 0)]

/-- Generic-filament fallback codes (`main.js:1046-1052`). -/
def filamentCodeMap : List (String × String) :=
  [("PLA", "GFL99"), ("PLA-S", "GFL96"), ("PLA-CF", "GFL98"),
   ("PETG", "GFG99"), ("PETG-CF", "GFG98"),
   ("ABS", "GFB99"), ("ASA", "GFB98"),
   ("TPU", "GFU99"), ("PA", "GFN99"), ("PA-CF", "GFN98"),
   ("PC", "GFC99"), ("PVA", "GFS99"), ("HIPS", "GFS98")]

/-- Command identifiers with a translation case in the switch at
`main.js:830-1092`; anything else falls into the silent default. -/
def knownCommandTypes : List String :=
  ["pause", "resume", "stop", "chamberLight", "light", "workLight",
   "nozzleTemp", "nozzle2Temp", "bedTemp", "partFan", "auxFan",
   "chamberFan", "speedLevel", "amsUnload", "unloadFilament", "amsLoad",
   "loadFilament", "gcode", "home", "calibration", "move", "xcamControl",
   "printOption", "amsDrying", "amsUserSetting", "amsControl",
   "amsGetRfid", "ipcamRecord", "ipcamTimelapse", "setAccessories",
   "getAccessories", "getAccessCode", "skipObjects", "buzzerCtrl",
   "setAirduct", "heatbedLight", "ledFlashing", "amsFilamentSetting"]

/-- The result of an `executeCommand` call that publishes nothing and
changes nothing. -/
def noExec : ExecResult :=
  { publishes := [], delayedPublishes := [], debugAmsFlagSet := false }

/-- Publish the given payloads and nothing else. -/
def publishOnly (payloads : List Json) : ExecResult :=
  { publishes := payloads, delayedPublishes := [], debugAmsFlagSet := false }

/-- The command switch of `executeCommand` (`main.js:830-1092`), acting
on the already-coerced command object. Parameters: the printer roster
model strings keyed by serial (the `printers` map, read for the light
commands), the target serial and the command object. An identifier
outside `knownCommandTypes` falls into the silent default. -/
def translateCommand (printers : List (String × String))
    (serial : String) (cmd : Cmd) : ExecResult :=
    -- print control
    if cmd.type = "pause" then
      publishOnly [Json.obj [("print", Json.obj [("command", Json.str ("pause")),
        ("sequence_id", Json.str ("0"))])]]
    else if cmd.type = "resume" then
      publishOnly [Json.obj [("print", Json.obj [("command", Json.str ("resume")),
        ("sequence_id", Json.str ("0"))])]]
    else if cmd.type = "stop" then
      publishOnly [Json.obj [("print", Json.obj [("command", Json.str ("stop")),
        ("sequence_id", Json.str ("0"))])]]
    -- lights (main.js:837-887); the H2 family has two chamber lights,
    -- the A1 family drives chamber and work light together
    else if cmd.type = "chamberLight" ∨ cmd.type = "light" then
      let modelUpperCL := ((printers.lookup serial).map jsToUpper).getD ("")
      let ledModeCL := if cmd.isOn.getD false then ("on") else ("off")
      if jsIncludes modelUpperCL ("H2D") ∨ jsIncludes modelUpperCL ("H2S")
          ∨ jsIncludes modelUpperCL ("H2C") then
        publishOnly
          [Json.obj [("system", Json.obj (ledctrlFields ("chamber_light") ledModeCL)),
            ("user_id", Json.str ("1234567890"))],
           Json.obj [("system", Json.obj (ledctrlFields ("chamber_light2") ledModeCL)),
            ("user_id", Json.str ("1234567890"))]]
      else
        publishOnly
          [Json.obj [("system", Json.obj (ledctrlFields ("chamber_light") ledModeCL)),
            ("user_id", Json.str ("1234567890"))]]
    else if cmd.type = "workLight" then
      let modelUpperWL := ((printers.lookup serial).map jsToUpper).getD ("")
      let ledModeWL := if cmd.isOn.getD false then ("on") else ("off")
      if jsIncludes modelUpperWL ("A1") then
        publishOnly
          [Json.obj [("system", Json.obj (ledctrlFields ("chamber_light") ledModeWL))],
           Json.obj [("system", Json.obj (ledctrlFields ("work_light") ledModeWL))]]
      else if jsIncludes modelUpperWL ("H2D") ∨ jsIncludes modelUpperWL ("H2S")
          ∨ jsIncludes modelUpperWL ("H2C") then
        publishOnly
          [Json.obj [("system", Json.obj (ledctrlFields ("chamber_light2") ledModeWL)),
            ("user_id", Json.str ("1234567890"))]]
      else
        publishOnly
          [Json.obj [("system", Json.obj (ledctrlFields ("work_light") ledModeWL))]]
    -- temperatures (gcode_line with sequence_id 2006 and user_id)
    else if cmd.type = "nozzleTemp" then
      publishOnly [gcodeLinePayload ("M104 S" ++ jsNumToString cmd.temp ++ "\n")]
    else if cmd.type = "nozzle2Temp" then
      publishOnly [gcodeLinePayload ("M104 T1 S" ++ jsNumToString cmd.temp ++ "\n")]
    else if cmd.type = "bedTemp" then
      publishOnly [gcodeLinePayload ("M140 S" ++ jsNumToString cmd.temp ++ "\n")]
    -- fans: 0-100 mapped to 0-255 (main.js:895-897)
    else if cmd.type = "partFan" then
      publishOnly [gcodeLinePayload ("M106 P1 S" ++ toString (fanSpeedNative cmd.speed) ++ "\n")]
    else if cmd.type = "auxFan" then
      publishOnly [gcodeLinePayload ("M106 P2 S" ++ toString (fanSpeedNative cmd.speed) ++ "\n")]
    else if cmd.type = "chamberFan" then
      publishOnly [gcodeLinePayload ("M106 P3 S" ++ toString (fanSpeedNative cmd.speed) ++ "\n")]
    else if cmd.type = "speedLevel" then
      publishOnly [Json.obj [("print", Json.obj [("command", Json.str ("print_speed")),
        ("sequence_id", Json.str ("0")), ("param", Json.str (jsNumToString cmd.level))])]]
    else if cmd.type = "amsUnload" ∨ cmd.type = "unloadFilament" then
      publishOnly [Json.obj [("print", Json.obj [("command", Json.str ("ams_change_filament")),
        ("sequence_id", Json.str ("0")), ("target", Json.num 255),
        ("curr_temp", Json.num 220), ("tar_temp", Json.num 220)])]]
    else if cmd.type = "amsLoad" ∨ cmd.type = "loadFilament" then
      publishOnly [Json.obj [("print", Json.obj [("command", Json.str ("ams_change_filament")),
        ("sequence_id", Json.str ("0")),
        ("target", Json.num ((cmd.slot <|> cmd.trayId).getD 0)),
        ("curr_temp", Json.num 220), ("tar_temp", Json.num 220)])]]
    else if cmd.type = "gcode" then
      publishOnly [gcodeLinePayload ((cmd.gcode.getD "undefined") ++ "\n")]
    else if cmd.type = "home" then
      publishOnly [gcodeLinePayload ("G28\n")]
    else if cmd.type = "calibration" then
      if cmd.calibrationType = some ("home") then
        publishOnly [gcodeLinePayload ("G28\n")]
      else if cmd.calibrationType = some ("bed_level") then
        publishOnly [gcodeLinePayload ("G29\n")]
      else noExec
    -- axis jog: relative mode, move, back to absolute (three payloads)
    else if cmd.type = "move" then
      let dist := jsOrInt cmd.distance 10
      let axis := (jsOrStr cmd.axis (some "X")).getD ("X")
      publishOnly
        [gcodeLinePayload ("G91\n"),
         gcodeLinePayload ("G0 (" ++ axis ++ toString dist ++ ") F3000\n"),
         gcodeLinePayload ("G90\n")]
    else if cmd.type = "xcamControl" then
      publishOnly [Json.obj [("xcam", Json.obj
        ([("sequence_id", Json.str ("0")), ("command", Json.str ("xcam_control_set"))]
          ++ jsField ("module_name") cmd.moduleName
          ++ jsField ("control") cmd.control
          ++ [("print_halt", Json.bool (cmd.printHalt.getD false))]))]]
    else if cmd.type = "printOption" then
      publishOnly [Json.obj [("print", Json.obj
        ([("sequence_id", Json.str ("0")), ("command", Json.str ("print_option"))]
          ++ jsField ("sound_enable") cmd.soundEnable
          ++ jsField ("auto_recovery") cmd.autoRecovery
          ++ jsField ("filament_tangle_detect") cmd.filamentTangleDetect
          ++ jsField ("nozzle_blob_detect") cmd.nozzleBlobDetect
          ++ jsField ("air_print_detect") cmd.airPrintDetect))]]
    else if cmd.type = "amsDrying" then
      publishOnly [Json.obj [("print", Json.obj
        ([("sequence_id", Json.str ("0")), ("command", Json.str ("ams_filament_drying"))]
          ++ jsField ("ams_id") cmd.amsId
          ++ jsField ("temp") (cmd.temp.map Json.num)
          ++ [("cooling_temp", Json.num 0)]
          ++ jsField ("duration") cmd.duration
          ++ [("humidity", Json.num 0)]
          ++ jsField ("mode") cmd.mode
          ++ [("rotate_tray", Json.bool false)]))]]
    else if cmd.type = "amsUserSetting" then
      publishOnly [Json.obj [("print", Json.obj
        ([("sequence_id", Json.str ("0")), ("command", Json.str ("ams_user_setting"))]
          ++ jsField ("ams_id") cmd.amsId
          ++ jsField ("startup_read_option") cmd.startupReadOption
          ++ jsField ("tray_read_option") cmd.trayReadOption))]]
    else if cmd.type = "amsControl" then
      publishOnly [Json.obj [("print", Json.obj
        ([("sequence_id", Json.str ("0")), ("command", Json.str ("ams_control"))]
          ++ jsField ("param") cmd.param))]]
    else if cmd.type = "amsGetRfid" then
      publishOnly [Json.obj [("print", Json.obj
        ([("sequence_id", Json.str ("0")), ("command", Json.str ("ams_get_rfid"))]
          ++ jsField ("ams_id") cmd.amsId
          ++ jsField ("slot_id") cmd.slotId))]]
    else if cmd.type = "ipcamRecord" then
      publishOnly [Json.obj [("camera", Json.obj
        ([("sequence_id", Json.str ("0")), ("command", Json.str ("ipcam_record_set"))]
          ++ jsField ("control") cmd.control))]]
    else if cmd.type = "ipcamTimelapse" then
      publishOnly [Json.obj [("camera", Json.obj
        ([("sequence_id", Json.str ("0")), ("command", Json.str ("ipcam_timelapse"))]
          ++ jsField ("control") cmd.control))]]
    else if cmd.type = "setAccessories" then
      publishOnly [Json.obj [("system", Json.obj
        ([("sequence_id", Json.str ("0")), ("command", Json.str ("set_accessories")),
          ("accessory_type", Json.str ("nozzle"))]
          ++ jsField ("nozzle_diameter") cmd.nozzleDiameter
          ++ jsField ("nozzle_type") cmd.nozzleType))]]
    else if cmd.type = "getAccessories" then
      publishOnly [Json.obj [("system", Json.obj
        [("sequence_id", Json.str ("0")), ("command", Json.str ("get_accessories")),
         ("accessory_type", Json.str ("none"))])]]
    else if cmd.type = "getAccessCode" then
      publishOnly [Json.obj [("system", Json.obj
        [("sequence_id", Json.str ("0")), ("command", Json.str ("get_access_code"))])]]
    else if cmd.type = "skipObjects" then
      publishOnly [Json.obj [("print", Json.obj
        ([("sequence_id", Json.str ("0")), ("command", Json.str ("skip_objects"))]
          ++ jsField ("obj_list") cmd.objList))]]
    else if cmd.type = "buzzerCtrl" then
      publishOnly [Json.obj [("print", Json.obj
        ([("sequence_id", Json.str ("0")), ("command", Json.str ("buzzer_ctrl"))]
          ++ jsField ("mode") cmd.mode
          ++ [("reason", Json.str (""))]))]]
    else if cmd.type = "setAirduct" then
      publishOnly [Json.obj [("print", Json.obj
        ([("sequence_id", Json.str ("0")), ("command", Json.str ("set_airduct"))]
          ++ jsField ("modeId") cmd.modeId
          ++ jsField ("submode") cmd.submode))]]
    else if cmd.type = "heatbedLight" then
      publishOnly [Json.obj [("system", Json.obj
        (ledctrlFields ("heatbed_light") (if cmd.isOn.getD false then ("on") else "off"))),
        ("user_id", Json.str ("1234567890"))]]
    else if cmd.type = "ledFlashing" then
      publishOnly [Json.obj [("system", Json.obj
        ([("sequence_id", Json.str ("0")), ("command", Json.str ("ledctrl"))]
          ++ jsField ("led_node") cmd.ledNode
          ++ [("led_mode", Json.str ("flashing"))]
          ++ jsField ("led_on_time") cmd.onTime
          ++ jsField ("led_off_time") cmd.offTime
          ++ [("loop_times", Json.num 1), ("interval_time", Json.num 0)])),
        ("user_id", Json.str ("1234567890"))]]
    else if cmd.type = "amsFilamentSetting" then
      let filamentCode :=
        (jsOrStr (jsOrStr cmd.trayInfoIdx
          (cmd.trayType.bind (fun t => filamentCodeMap.lookup t))) (some "GFL99")).getD ("GFL99")
      { publishes := [Json.obj [("print", Json.obj
          ([("sequence_id", Json.str ("0")), ("command", Json.str ("ams_filament_setting"))]
            ++ jsField ("ams_id") cmd.amsId
            ++ jsField ("slot_id") (cmd.trayId.map Json.num)
            ++ jsField ("tray_id") (cmd.trayId.map Json.num)
            ++ [("tray_info_idx", Json.str filamentCode), ("setting_id", Json.str (""))]
            ++ jsField ("tray_color") cmd.trayColor
            ++ jsField ("nozzle_temp_min") cmd.nozzleTempMin
            ++ jsField ("nozzle_temp_max") cmd.nozzleTempMax
            ++ jsField ("tray_type") (cmd.trayType.map Json.str)))]]
        delayedPublishes := [Json.obj [("pushing", Json.obj
          [("command", Json.str ("pushall"))])]]
        debugAmsFlagSet := true }
    else noExec

/-- `executeCommand` (`main.js:818-1103`), modelled at the level of its
observable effects. Parameters: the serials with a live MQTT client
(`mqttClients`), the roster model strings, the target serial, and the
command (string or object; a string `s` is coerced to an object with only
`type = s`, `main.js:827`). Each payload is published to
`device/<serial>/request`. A missing client returns before the switch
(`main.js:821-824`): nothing is published, raised or mutated. -/
def executeCommand (mqttClients : List String) (printers : List (String × String))
    (serial : String) (command : CommandInput) : ExecResult :=
  if mqttClients.contains serial = false then noExec
  else
    let cmd : Cmd := match command with
      | .strCmd s => { type := s }
      | .objCmd c => c
    translateCommand printers serial cmd

set_option maxRecDepth 8000 in
theorem translateCommand_unknown (printers : List (String × String))
    (serial : String) (c : Cmd)
    (hmem : c.type ∉ knownCommandTypes) :
    translateCommand printers serial c = noExec := by
  have hne0 : c.type ≠ "pause" := fun heq => hmem (by rw [heq]; decide)
  have hne1 : c.type ≠ "resume" := fun heq => hmem (by rw [heq]; decide)
  have hne2 : c.type ≠ "stop" := fun heq => hmem (by rw [heq]; decide)
  have hne3 : c.type ≠ "chamberLight" := fun heq => hmem (by rw [heq]; decide)
  have hne4 : c.type ≠ "light" := fun heq => hmem (by rw [heq]; decide)
  have hne5 : c.type ≠ "workLight" := fun heq => hmem (by rw [heq]; decide)
  have hne6 : c.type ≠ "nozzleTemp" := fun heq => hmem (by rw [heq]; decide)
  have hne7 : c.type ≠ "nozzle2Temp" := fun heq => hmem (by rw [heq]; decide)
  have hne8 : c.type ≠ "bedTemp" := fun heq => hmem (by rw [heq]; decide)
  have hne9 : c.type ≠ "partFan" := fun heq => hmem (by rw [heq]; decide)
  have hne10 : c.type ≠ "auxFan" := fun heq => hmem (by rw [heq]; decide)
  have hne11 : c.type ≠ "chamberFan" := fun heq => hmem (by rw [heq]; decide)
  have hne12 : c.type ≠ "speedLevel" := fun heq => hmem (by rw [heq]; decide)
  have hne13 : c.type ≠ "amsUnload" := fun heq => hmem (by rw [heq]; decide)
  have hne14 : c.type ≠ "unloadFilament" := fun heq => hmem (by rw [heq]; decide)
  have hne15 : c.type ≠ "amsLoad" := fun heq => hmem (by rw [heq]; decide)
  have hne16 : c.type ≠ "loadFilament" := fun heq => hmem (by rw [heq]; decide)
  have hne17 : c.type ≠ "gcode" := fun heq => hmem (by rw [heq]; decide)
  have hne18 : c.type ≠ "home" := fun heq => hmem (by rw [heq]; decide)
  have hne19 : c.type ≠ "calibration" := fun heq => hmem (by rw [heq]; decide)
  have hne20 : c.type ≠ "move" := fun heq => hmem (by rw [heq]; decide)
  have hne21 : c.type ≠ "xcamControl" := fun heq => hmem (by rw [heq]; decide)
  have hne22 : c.type ≠ "printOption" := fun heq => hmem (by rw [heq]; decide)
  have hne23 : c.type ≠ "amsDrying" := fun heq => hmem (by rw [heq]; decide)
  have hne24 : c.type ≠ "amsUserSetting" := fun heq => hmem (by rw [heq]; decide)
  have hne25 : c.type ≠ "amsControl" := fun heq => hmem (by rw [heq]; decide)
  have hne26 : c.type ≠ "amsGetRfid" := fun heq => hmem (by rw [heq]; decide)
  have hne27 : c.type ≠ "ipcamRecord" := fun heq => hmem (by rw [heq]; decide)
  have hne28 : c.type ≠ "ipcamTimelapse" := fun heq => hmem (by rw [heq]; decide)
  have hne29 : c.type ≠ "setAccessories" := fun heq => hmem (by rw [heq]; decide)
  have hne30 : c.type ≠ "getAccessories" := fun heq => hmem (by rw [heq]; decide)
  have hne31 : c.type ≠ "getAccessCode" := fun heq => hmem (by rw [heq]; decide)
  have hne32 : c.type ≠ "skipObjects" := fun heq => hmem (by rw [heq]; decide)
  have hne33 : c.type ≠ "buzzerCtrl" := fun heq => hmem (by rw [heq]; decide)
  have hne34 : c.type ≠ "setAirduct" := fun heq => hmem (by rw [heq]; decide)
  have hne35 : c.type ≠ "heatbedLight" := fun heq => hmem (by rw [heq]; decide)
  have hne36 : c.type ≠ "ledFlashing" := fun heq => hmem (by rw [heq]; decide)
  have hne37 : c.type ≠ "amsFilamentSetting" := fun heq => hmem (by rw [heq]; decide)
  unfold translateCommand
  rw [if_neg hne0]
  rw [if_neg hne1]
  rw [if_neg hne2]
  rw [if_neg (not_or.mpr ⟨hne3, hne4⟩)]
  rw [if_neg hne5]
  rw [if_neg hne6]
  rw [if_neg hne7]
  rw [if_neg hne8]
  rw [if_neg hne9]
  rw [if_neg hne10]
  rw [if_neg hne11]
  rw [if_neg hne12]
  rw [if_neg (not_or.mpr ⟨hne13, hne14⟩)]
  rw [if_neg (not_or.mpr ⟨hne15, hne16⟩)]
  rw [if_neg hne17]
  rw [if_neg hne18]
  rw [if_neg hne19]
  rw [if_neg hne20]
  rw [if_neg hne21]
  rw [if_neg hne22]
  rw [if_neg hne23]
  rw [if_neg hne24]
  rw [if_neg hne25]
  rw [if_neg hne26]
  rw [if_neg hne27]
  rw [if_neg hne28]
  rw [if_neg hne29]
  rw [if_neg hne30]
  rw [if_neg hne31]
  rw [if_neg hne32]
  rw [if_neg hne33]
  rw [if_neg hne34]
  rw [if_neg hne35]
  rw [if_neg hne36]
  rw [if_neg hne37]

/-- C9: for every device serial and every command, if there is no live
MQTT session for that serial or the command's identifier is unknown, the
command execution publishes no wire payload (neither immediately nor
delayed), raises no error (the model is a total function returning the
silent result), and leaves all state unchanged (the only client state the
translator can mutate, the AMS debug flag, stays unset). -/
theorem c9_unknown_or_missing_session (mqttClients : List String)
    (printers : List (String × String)) (serial : String) :
    (∀ command : CommandInput, mqttClients.contains serial = false →
        executeCommand mqttClients printers serial command = noExec)
    ∧ (∀ c : Cmd, c.type ∉ knownCommandTypes →
        executeCommand mqttClients printers serial (CommandInput.objCmd c) = noExec)
    ∧ (∀ s : String, s ∉ knownCommandTypes →
        executeCommand mqttClients printers serial (CommandInput.strCmd s) = noExec) := by
  refine ⟨?_, ?_, ?_⟩
  · intro command h
    unfold executeCommand
    rw [if_pos h]
  · intro c hmem
    unfold executeCommand
    by_cases hc : mqttClients.contains serial = false
    · rw [if_pos hc]
    · rw [if_neg hc]
      exact translateCommand_unknown printers serial c hmem
  · intro s hmem
    unfold executeCommand
    by_cases hc : mqttClients.contains serial = false
    · rw [if_pos hc]
    · rw [if_neg hc]
      exact translateCommand_unknown printers serial { type := s } hmem

/-- Witness for `c9_unknown_or_missing_session`: a known command with no
session, and an unknown identifier with a live session. -/
theorem c9_witness :
    executeCommand [] [] ("SN1") (CommandInput.strCmd ("pause")) = noExec
      ∧ executeCommand [("SN1")] [] ("SN1")
          (CommandInput.objCmd { type := "frobnicate" }) = noExec :=
  ⟨(c9_unknown_or_missing_session [] [] ("SN1")).1 (CommandInput.strCmd ("pause")) (by decide),
   (c9_unknown_or_missing_session [("SN1")] [] ("SN1")).2.1 { type := "frobnicate" } (by decide)⟩

/-- C10: executing a command given as a bare string is the same as
executing the object form carrying only that type and no parameters: the
string is coerced to exactly that object (`main.js:827`), so both forms
publish exactly the same payloads, and parameterized commands invoked via
a bare string fall back to their in-translator defaults. -/
theorem c10_string_object_equivalence (mqttClients : List String)
    (printers : List (String × String)) (serial : String) (name : String) :
    executeCommand mqttClients printers serial (CommandInput.strCmd name)
      = executeCommand mqttClients printers serial (CommandInput.objCmd { type := name }) :=
  rfl

/-! ## Telemetry normalization (main.js:341-739)

The MQTT message handler parses a frame, updates the per-device Telemetry
Snapshot in the `printers` map and forwards the merged status. The whole
handler body runs inside `try { ... } catch (e) {}` (`main.js:342,738`).

Crucial control-flow fact: for every message whose payload has a `print`
section, line 518 evaluates `if (isH2Model && ams && ...)`, but the
`const isH2Model` it reads is declared only at line 618 in the same block
scope — a temporal-dead-zone access, which throws a `ReferenceError`. The
empty catch swallows it, so the stale-data reset (581-596), the
transition reset (598-608) and the status merge (660-719) never execute.
The only Telemetry Store write that happens before the throw is the CTC
chamber-temperature update at lines 380-390. The merge is nevertheless
modelled below (`mergeStatus`), and sits in the handler exactly where the
source has it: after the throwing statement.

JS value conventions: numeric wire fields carrying integral values are
`Option Int`; fields the code only passes through are `Option Json`;
string fields parsed with `parseInt`/`parseFloat` before use are modelled
as already-parsed numbers (an empty string counts as absent). -/

/-- One entry of `lights_report`. -/
structure LightReport where
  node : String
  mode : String
deriving BEq, Repr

/-- One entry of `device.extruder.info` / `extruder.info` with the
bit-packed temperature. -/
structure RawExtruderInfo where
  temp : Option Nat := none
deriving BEq, Repr

/-- A raw AMS tray / external-spool slot object from the wire. -/
structure RawTray where
  id : Option Int := none
  tray_type : Option String := none
  tray_color : Option String := none
  tray_sub_brands : Option String := none
  remain : Option Int := none
  k : Option Json := none
  nozzle_temp_min : Option Json := none
  nozzle_temp_max : Option Json := none
  tray_info_idx : Option Json := none
  tag_uid : Option Json := none
  tray_uuid : Option Json := none
  tray_weight : Option Int := none
  drying_temp : Option Int := none
  drying_time : Option Int := none

/-- A raw AMS unit from the wire (`p.ams.ams[i]`). -/
structure RawAmsUnit where
  humidity_raw : Option Int := none
  humidity : Option Int := none
  temp : Option Json := none
  info : Option Int := none
  tray : Option (List (Option RawTray)) := none

/-- The `p.ams` section. -/
structure FrameAms where
  ams_humidity : Option Json := none
  tray_now : Option Json := none
  ams : Option (List RawAmsUnit) := none

/-- One decoded print-section frame (the fields the handler reads).
Nested wire paths are flattened: `device_extruder_info` is
`p.device.extruder.info`, `extruder_info` is `p.extruder.info`,
`info_temp` is `p.info.temp`, `device_ctc_info_temp` is
`p.device.ctc.info.temp`. -/
structure Frame where
  gcode_state : Option String := none
  mc_percent : Option Int := none
  mc_remaining_time : Option Int := none
  gcode_file : Option String := none
  subtask_name : Option String := none
  layer_num : Option Int := none
  total_layer_num : Option Int := none
  nozzle_temper : Option Int := none
  nozzle_target_temper : Option Int := none
  nozzle_temper_2 : Option Int := none
  nozzle_target_temper_2 : Option Int := none
  bed_temper : Option Int := none
  bed_target_temper : Option Int := none
  chamber_temper : Option Int := none
  cooling_fan_speed : Option Json := none
  big_fan1_speed : Option Json := none
  big_fan2_speed : Option Json := none
  lights_report : Option (List LightReport) := none
  spd_lvl : Option Json := none
  spd_mag : Option Json := none
  ams : Option FrameAms := none
  vir_slot : Option (List RawTray) := none
  vt_tray : Option RawTray := none
  wifi_signal : Option Json := none
  print_type : Option Json := none
  print_error : Option Int := none
  mc_print_error_code : Option String := none
  mc_print_stage : Option Json := none
  hms : Option (List Json) := none
  device_extruder_info : Option (List RawExtruderInfo) := none
  extruder_info : Option (List RawExtruderInfo) := none
  info_temp : Option Int := none
  device_ctc_info_temp : Option Nat := none

/-- A normalized AMS unit in the Telemetry Snapshot. -/
structure AmsUnitSnap where
  id : Nat
  temp : Json
  nozzle : Option Int := none
  infoRaw : Option Int := none
  humidity : Option Int := none
  humidityIndex : Option Int := none

/-- A normalized AMS tray in the Telemetry Snapshot. -/
structure AmsTray where
  id : Nat
  unitId : Nat
  slot : Nat
  type : String
  color : String
  name : String
  remain : Int
  k : Json
  nozzleTempMin : Json
  nozzleTempMax : Json
  trayInfoIdx : Json
  tagUid : Json
  trayUuid : Json
  trayWeight : Int
  dryingTemp : Int
  dryingTime : Int

/-- The normalized AMS assembly. -/
structure AmsSnapshot where
  humidity : Option Json := none
  trayNow : Option Json := none
  units : List AmsUnitSnap := []
  trays : List AmsTray := []

/-- A normalized external-spool record (the `vt_tray` form has no id). -/
structure Spool where
  id : Option Int := none
  type : String
  color : String
  name : String
  remain : Int
  k : Json
  nozzleTempMin : Json
  nozzleTempMax : Json
  trayInfoIdx : Json
  tagUid : Json
  trayWeight : Int

/-- The per-device Telemetry Snapshot (the value stored in the `printers`
map, telemetry fields only; the `_h2debug` diagnostic blob of truncated
debug strings from main.js:709-717 is not modelled). -/
structure Status where
  online : Option Bool := none
  gcodeState : Option String := none
  printProgress : Option Int := none
  remainingTime : Option Int := none
  currentFile : Option String := none
  layer : Option Int := none
  totalLayers : Option Int := none
  nozzleTemp : Option Int := none
  nozzleTargetTemp : Option Int := none
  nozzleTemp2 : Option Int := none
  nozzleTargetTemp2 : Option Int := none
  bedTemp : Option Int := none
  bedTargetTemp : Option Int := none
  chamberTemp : Option Int := none
  partFan : Option Json := none
  auxFan : Option Json := none
  chamberFan : Option Json := none
  chamberLight : Option Bool := none
  workLight : Option Bool := none
  speedLevel : Option Json := none
  speedMagnitude : Option Json := none
  ams : Option AmsSnapshot := none
  externalSpool : Option Spool := none
  externalSpools : Option (List Spool) := none
  wifiSignal : Option Json := none
  printType : Option Json := none
  printError : Option Int := none
  printErrorCode : Option String := none
  printStage : Option Json := none
  hms : Option (List Json) := none

/-- JS falsiness of a JSON value (empty string, zero, false; objects and
arrays are always truthy). -/
def jsFalsy : Json → Bool
  | Json.str s => s = ""
  | Json.num n => n = 0
  | Json.bool b => b = false
  | _ => false

/-- JS falsy-or on a possibly-absent JSON value: `a || d`. -/
def jsOrJson (a : Option Json) (d : Json) : Json :=
  match a with
  | some j => if jsFalsy j then d else j
  | none => d

/-- Tray inclusion rule (`main.js:490` and `main.js:538,562`): a non-empty
type, or a color that is present and not the all-zero placeholder. -/
def trayHasData (ty color : Option String) : Bool :=
  jsTruthyStr ty || (jsTruthyStr color && color != some "00000000")

/-- AMS parsing and incremental merge (`main.js:425-515`). A full
`ams.ams` array rebuilds units and trays wholesale; otherwise the previous
units/trays are kept and only humidity/active-tray are merged. The sticky
nozzle assignment reads the per-client lock map (`client._amsNozzleLock`):
a unit already latched keeps its latched value, otherwise bit 8 of the
unit's info field is used (and would be latched). -/
def parseAms (prevAms : AmsSnapshot) (lock : Nat → Option Int) (pams : FrameAms) :
    AmsSnapshot :=
  let base : AmsSnapshot :=
    { humidity := pams.ams_humidity <|> prevAms.humidity
      trayNow := pams.tray_now <|> prevAms.trayNow
      units := prevAms.units
      trays := prevAms.trays }
  match pams.ams with
  | none => base
  | some unitList =>
    let units := unitList.enum.map (fun iu =>
      let unitIdx := iu.1
      let unit := iu.2
      let hasHumidityRaw := unit.humidity_raw.isSome
      let hasHumidityIndex :=
        match unit.humidity with
        | some v => decide (0 < v)
        | none => false
      let withNozzle : AmsUnitSnap :=
        match unit.info with
        | some infoVal =>
          let bit8 := (infoVal / 2 ^ 8) % 2
          { id := unitIdx, temp := jsOrJson unit.temp (Json.num 0),
            nozzle := some ((lock unitIdx).getD bit8), infoRaw := some infoVal }
        | none => { id := unitIdx, temp := jsOrJson unit.temp (Json.num 0) }
      if hasHumidityRaw then
        { withNozzle with
          humidity := unit.humidity_raw
          humidityIndex := some (unit.humidity.getD 0) }
      else if hasHumidityIndex then
        { withNozzle with humidity := unit.humidity, humidityIndex := unit.humidity }
      else withNozzle)
    let trays := unitList.enum.flatMap (fun iu =>
      let unitIdx := iu.1
      let unit := iu.2
      match unit.tray with
      | none => []
      | some trayList =>
        trayList.enum.filterMap (fun it =>
          let trayIdx := it.1
          match it.2 with
          | none => none
          | some tray =>
            if trayHasData tray.tray_type tray.tray_color then
              some
                { id := unitIdx * 4 + trayIdx
                  unitId := unitIdx
                  slot := trayIdx
                  type := tray.tray_type.getD ("")
                  color := tray.tray_color.getD ("")
                  name := (jsOrStr tray.tray_sub_brands
                    (jsOrStr tray.tray_type (some ""))).getD ("")
                  remain := tray.remain.getD (-1)
                  k := jsOrJson tray.k (Json.num 0)
                  nozzleTempMin := jsOrJson tray.nozzle_temp_min (Json.num 0)
                  nozzleTempMax := jsOrJson tray.nozzle_temp_max (Json.num 0)
                  trayInfoIdx := jsOrJson tray.tray_info_idx (Json.str (""))
                  tagUid := jsOrJson tray.tag_uid (Json.str (""))
                  trayUuid := jsOrJson tray.tray_uuid (Json.str (""))
                  trayWeight := tray.tray_weight.getD 0
                  dryingTemp := tray.drying_temp.getD 0
                  dryingTime := tray.drying_time.getD 0 }
            else none))
    { base with units := units, trays := trays }

/-- External-spool parsing (`main.js:531-577`): a `vir_slot` array on
dual-nozzle models, else a single `vt_tray`; same inclusion rule as AMS
trays. Returns the backward-compatible single spool (first included one)
and the full list. -/
def parseExternalSpools (p : Frame) : Option Spool × List Spool :=
  match p.vir_slot with
  | some slots =>
    if slots.length > 0 then
      let spools := slots.filterMap (fun slot =>
        let vtType := slot.tray_type.getD ("")
        let vtColor := slot.tray_color.getD ("")
        if vtType ≠ "" ∨ (vtColor ≠ "" ∧ vtColor ≠ "00000000") then
          some
            { id := some (slot.id.getD 254)
              type := vtType
              color := vtColor
              name := slot.tray_sub_brands.getD ("")
              remain := slot.remain.getD (-1)
              k := jsOrJson slot.k (Json.num 0)
              nozzleTempMin := jsOrJson slot.nozzle_temp_min (Json.num 0)
              nozzleTempMax := jsOrJson slot.nozzle_temp_max (Json.num 0)
              trayInfoIdx := jsOrJson slot.tray_info_idx (Json.str (""))
              tagUid := jsOrJson slot.tag_uid (Json.str (""))
              trayWeight := slot.tray_weight.getD 0 }
        else none)
      (spools.head?, spools)
    else vtTrayCase p
  | none => vtTrayCase p
where
  vtTrayCase (p : Frame) : Option Spool × List Spool :=
    match p.vt_tray with
    | some vt =>
      let vtType := vt.tray_type.getD ("")
      let vtColor := vt.tray_color.getD ("")
      if vtType ≠ "" ∨ (vtColor ≠ "" ∧ vtColor ≠ "00000000") then
        let spool : Spool :=
          { type := vtType
            color := vtColor
            name := vt.tray_sub_brands.getD ("")
            remain := vt.remain.getD (-1)
            k := jsOrJson vt.k (Json.num 0)
            nozzleTempMin := jsOrJson vt.nozzle_temp_min (Json.num 0)
            nozzleTempMax := jsOrJson vt.nozzle_temp_max (Json.num 0)
            trayInfoIdx := jsOrJson vt.tray_info_idx (Json.str (""))
            tagUid := jsOrJson vt.tag_uid (Json.str (""))
            trayWeight := vt.tray_weight.getD 0 }
        (some spool, [spool])
      else (none, [])
    | none => (none, [])

/-- The status merge, stale-data reset and transition reset
(`main.js:579-718`). UNREACHABLE in the shipped handler: control throws at
line 518 before getting here (see `printSectionBody`); modelled faithfully
nonetheless. `model` is `printers.get(serial)?.model` as read at lines
617-618 and 658; `lock` is the sticky AMS nozzle-assignment map. -/
def mergeStatus (model : Option String) (lock : Nat → Option Int)
    (prevStatus : Status) (p : Frame) : Status :=
  let ams : Option AmsSnapshot :=
    match p.ams with
    | some pams => some (parseAms (prevStatus.ams.getD {}) lock pams)
    | none => none
  let spools := parseExternalSpools p
  -- stale-data reset (main.js:581-596)
  let currentState := p.gcode_state <|> prevStatus.gcodeState
  let prev1 :=
    if currentState = some ("IDLE") ∨ currentState = some ("FINISH") then
      let prevE :=
        if p.print_error = none ∨ p.print_error = some 0 then
          { prevStatus with printError := some 0, printErrorCode := some ("") }
        else prevStatus
      { prevE with
        printProgress := some 0
        remainingTime := some 0
        nozzleTargetTemp := some 0
        nozzleTargetTemp2 := some 0
        bedTargetTemp := some 0
        hms := some [] }
    else prevStatus
  -- transition reset (main.js:598-608)
  let prevState := prev1.gcodeState
  let wasPrinting := prevState = some ("RUNNING") ∨ prevState = some ("PAUSE")
    ∨ prevState = some ("PREPARE")
  let nowIdle := currentState = some ("IDLE") ∨ currentState = some ("FINISH")
  let prev2 :=
    if wasPrinting ∧ nowIdle then
      { prev1 with
        nozzleTemp := some 0
        nozzleTemp2 := none
        bedTemp := some 0
        chamberTemp := some 0 }
    else prev1
  -- H2 detection (main.js:617-618)
  let isH2Model := (model.map (fun m => jsIncludes (jsToUpper m) ("H2"))).getD false
  -- nozzle temperatures (main.js:620-654)
  let nozzle1Temp : Int :=
    if isH2Model then prev2.nozzleTemp.getD 0
    else (p.nozzle_temper <|> prev2.nozzleTemp).getD 0
  let nozzle1Target : Int :=
    if isH2Model then prev2.nozzleTargetTemp.getD 0
    else (p.nozzle_target_temper <|> prev2.nozzleTargetTemp).getD 0
  let nozzle2Temp : Option Int :=
    if isH2Model then prev2.nozzleTemp2
    else p.nozzle_temper_2 <|> prev2.nozzleTemp2
  let nozzle2Target : Option Int :=
    if isH2Model then prev2.nozzleTargetTemp2
    else p.nozzle_target_temper_2 <|> prev2.nozzleTargetTemp2
  let temps : Int × Int × Option Int × Option Int :=
    match p.device_extruder_info with
    | some info =>
      if 1 ≤ info.length then
        let left := decodeTemp ((info.get? 0).bind (fun e => e.temp))
        if 2 ≤ info.length then
          let right := decodeTemp ((info.get? 1).bind (fun e => e.temp))
          ((left.1 : Int), (left.2 : Int), some (right.1 : Int), some (right.2 : Int))
        else ((left.1 : Int), (left.2 : Int), nozzle2Temp, nozzle2Target)
      else extruderFallback p (nozzle1Temp, nozzle1Target, nozzle2Temp, nozzle2Target)
    | none => extruderFallback p (nozzle1Temp, nozzle1Target, nozzle2Temp, nozzle2Target)
  -- chamber temperature (main.js:656-658)
  let chamberTempValue : Option Int :=
    p.chamber_temper <|> (if isH2Model then p.info_temp else none)
  { online := some true
    gcodeState := some ((p.gcode_state <|> prev2.gcodeState).getD "IDLE")
    printProgress := some ((p.mc_percent <|> prev2.printProgress).getD 0)
    remainingTime := some ((p.mc_remaining_time <|> prev2.remainingTime).getD 0)
    currentFile := some ((jsOrStr (jsOrStr (jsOrStr p.gcode_file p.subtask_name)
      prev2.currentFile) (some "")).getD "")
    layer := some ((p.layer_num <|> prev2.layer).getD 0)
    totalLayers := some ((p.total_layer_num <|> prev2.totalLayers).getD 0)
    nozzleTemp := some temps.1
    nozzleTargetTemp := some temps.2.1
    nozzleTemp2 := temps.2.2.1
    nozzleTargetTemp2 := temps.2.2.2
    bedTemp := some ((p.bed_temper <|> prev2.bedTemp).getD 0)
    bedTargetTemp := some ((p.bed_target_temper <|> prev2.bedTargetTemp).getD 0)
    chamberTemp := some ((chamberTempValue <|> prev2.chamberTemp).getD 0)
    partFan := p.cooling_fan_speed <|> prev2.partFan
    auxFan := p.big_fan1_speed <|> prev2.auxFan
    chamberFan := p.big_fan2_speed <|> prev2.chamberFan
    chamberLight :=
      match p.lights_report with
      | some lr => some
          ((((lr.find? (fun l => l.node == "chamber_light")).map LightReport.mode)
              == some "on")
            || (((lr.find? (fun l => l.node == "chamber_light2")).map LightReport.mode)
              == some "on"))
      | none => prev2.chamberLight
    workLight :=
      match p.lights_report with
      | some lr => some
          ((((lr.find? (fun l => l.node == "chamber_light")).map LightReport.mode)
              == some "on")
            || (((lr.find? (fun l => l.node == "chamber_light2")).map LightReport.mode)
              == some "on")
            || (((lr.find? (fun l => l.node == "work_light")).map LightReport.mode)
              == some "on"))
      | none => prev2.workLight
    speedLevel := p.spd_lvl <|> prev2.speedLevel
    speedMagnitude := p.spd_mag <|> prev2.speedMagnitude
    ams := ams <|> prev2.ams
    externalSpool := spools.1 <|> prev2.externalSpool
    externalSpools := if spools.2.length > 0 then some spools.2 else prev2.externalSpools
    wifiSignal := p.wifi_signal <|> prev2.wifiSignal
    printType := p.print_type <|> prev2.printType
    printError := some ((p.print_error <|> prev2.printError).getD 0)
    printErrorCode := some ((p.mc_print_error_code <|> prev2.printErrorCode).getD "")
    printStage := p.mc_print_stage <|> prev2.printStage
    hms := some (match p.hms with
      | some l => l
      | none => prev2.hms.getD []) }
where
  /-- Fallback nozzle decode from `p.extruder.info` (main.js:647-654). -/
  extruderFallback (p : Frame) (base : Int × Int × Option Int × Option Int) :
      Int × Int × Option Int × Option Int :=
    match p.extruder_info with
    | some info =>
      if 2 ≤ info.length then
        let left := decodeTemp ((info.get? 0).bind (fun e => e.temp))
        let right := decodeTemp ((info.get? 1).bind (fun e => e.temp))
        ((left.1 : Int), (left.2 : Int), some (right.1 : Int), some (right.2 : Int))
      else base
    | none => base

/-- A JS exception value (only the kind matters here). -/
inductive JsError where
  | referenceError
deriving BEq, Repr

/-- A decoded MQTT message payload (only the `print` section feeds the
Telemetry Store). -/
structure PrintMessage where
  print : Option Frame

/-- Lines 409-737 of the message handler for a message with a print
section, as an exception-carrying computation over the device's snapshot.
Lines 423-515 only compute local values (the AMS parse feeds
`mergeStatus` below). Then line 518 evaluates
`if (isH2Model && ams && ams.units.length > 0 && ...)`: `isH2Model` is a
`const` declared at line 618 in the same block scope, so this access is in
its temporal dead zone and throws a `ReferenceError`, making everything
after it — including the whole merge — dead code. -/
def printSectionBody (model : Option String) (lock : Nat → Option Int)
    (prev1 : Status) (p : Frame) : Except JsError Status := do
  throw JsError.referenceError
  return mergeStatus model lock prev1 p

/-- The MQTT message handler's effect on the device's Telemetry Snapshot
(`main.js:341-739`). First the CTC chamber-temperature update
(lines 380-390, `ctcTemp & 0xFFFF`), the only store write preceding
line 518; then, for a message with a print section, the throwing body,
whose `ReferenceError` the empty catch at line 738 swallows, leaving the
snapshot as of the CTC update. -/
def onPrinterMessage (model : Option String) (lock : Nat → Option Int)
    (prev : Status) (msg : PrintMessage) : Status :=
  match msg.print with
  | none => prev
  | some p =>
    let prev1 :=
      match p.device_ctc_info_temp with
      | some t => { prev with chamberTemp := some ((t % 65536 : Nat) : Int) }
      | none => prev
    match printSectionBody model lock prev1 p with
    | Except.ok s => s
    | Except.error _ => prev1

/-- Closed form of the message handler for a message with a print
section: the snapshot is unchanged except for the CTC chamber-temperature
field when that key is present, because the handler throws before
reaching the merge. -/
theorem onPrinterMessage_eq (model : Option String) (lock : Nat → Option Int)
    (prev : Status) (p : Frame) :
    onPrinterMessage model lock prev { print := some p }
      = match p.device_ctc_info_temp with
        | some t => { prev with chamberTemp := some ((t % 65536 : Nat) : Int) }
        | none => prev := by
  unfold onPrinterMessage printSectionBody
  dsimp only
  cases hc : p.device_ctc_info_temp with
  | none => rfl
  | some t => rfl

/-- C1: for every device and every incoming frame with a recognized print
section, every Telemetry Snapshot field whose corresponding wire key (or
keys) is absent or null in the frame keeps its previous value after the
handler runs — absence means unchanged, not cleared. In the shipped code
this holds in a strong form: the handler's only store write before the
`ReferenceError` of line 518 (see `printSectionBody`) is the key-guarded
CTC chamber-temperature update, so every field whose keys are absent is
untouched. -/
theorem c1_omitted_fields_retained (model : Option String) (lock : Nat → Option Int)
    (prev : Status) (p : Frame) :
    (p.gcode_state = none →
      (onPrinterMessage model lock prev { print := some p }).gcodeState = prev.gcodeState)
    ∧ (p.mc_percent = none →
      (onPrinterMessage model lock prev { print := some p }).printProgress = prev.printProgress)
    ∧ (p.mc_remaining_time = none →
      (onPrinterMessage model lock prev { print := some p }).remainingTime = prev.remainingTime)
    ∧ (p.gcode_file = none → p.subtask_name = none →
      (onPrinterMessage model lock prev { print := some p }).currentFile = prev.currentFile)
    ∧ (p.layer_num = none →
      (onPrinterMessage model lock prev { print := some p }).layer = prev.layer)
    ∧ (p.total_layer_num = none →
      (onPrinterMessage model lock prev { print := some p }).totalLayers = prev.totalLayers)
    ∧ (p.nozzle_temper = none → p.device_extruder_info = none → p.extruder_info = none →
      (onPrinterMessage model lock prev { print := some p }).nozzleTemp = prev.nozzleTemp)
    ∧ (p.nozzle_target_temper = none → p.device_extruder_info = none → p.extruder_info = none →
      (onPrinterMessage model lock prev { print := some p }).nozzleTargetTemp
        = prev.nozzleTargetTemp)
    ∧ (p.nozzle_temper_2 = none → p.device_extruder_info = none → p.extruder_info = none →
      (onPrinterMessage model lock prev { print := some p }).nozzleTemp2 = prev.nozzleTemp2)
    ∧ (p.nozzle_target_temper_2 = none → p.device_extruder_info = none →
        p.extruder_info = none →
      (onPrinterMessage model lock prev { print := some p }).nozzleTargetTemp2
        = prev.nozzleTargetTemp2)
    ∧ (p.bed_temper = none →
      (onPrinterMessage model lock prev { print := some p }).bedTemp = prev.bedTemp)
    ∧ (p.bed_target_temper = none →
      (onPrinterMessage model lock prev { print := some p }).bedTargetTemp = prev.bedTargetTemp)
    ∧ (p.chamber_temper = none → p.info_temp = none → p.device_ctc_info_temp = none →
      (onPrinterMessage model lock prev { print := some p }).chamberTemp = prev.chamberTemp)
    ∧ (p.cooling_fan_speed = none →
      (onPrinterMessage model lock prev { print := some p }).partFan = prev.partFan)
    ∧ (p.big_fan1_speed = none →
      (onPrinterMessage model lock prev { print := some p }).auxFan = prev.auxFan)
    ∧ (p.big_fan2_speed = none →
      (onPrinterMessage model lock prev { print := some p }).chamberFan = prev.chamberFan)
    ∧ (p.lights_report = none →
      (onPrinterMessage model lock prev { print := some p }).chamberLight = prev.chamberLight
        ∧ (onPrinterMessage model lock prev { print := some p }).workLight = prev.workLight)
    ∧ (p.spd_lvl = none →
      (onPrinterMessage model lock prev { print := some p }).speedLevel = prev.speedLevel)
    ∧ (p.spd_mag = none →
      (onPrinterMessage model lock prev { print := some p }).speedMagnitude
        = prev.speedMagnitude)
    ∧ (p.ams = none →
      (onPrinterMessage model lock prev { print := some p }).ams = prev.ams)
    ∧ (p.vir_slot = none → p.vt_tray = none →
      (onPrinterMessage model lock prev { print := some p }).externalSpool = prev.externalSpool
        ∧ (onPrinterMessage model lock prev { print := some p }).externalSpools
          = prev.externalSpools)
    ∧ (p.wifi_signal = none →
      (onPrinterMessage model lock prev { print := some p }).wifiSignal = prev.wifiSignal)
    ∧ (p.print_type = none →
      (onPrinterMessage model lock prev { print := some p }).printType = prev.printType)
    ∧ (p.print_error = none →
      (onPrinterMessage model lock prev { print := some p }).printError = prev.printError)
    ∧ (p.mc_print_error_code = none →
      (onPrinterMessage model lock prev { print := some p }).printErrorCode
        = prev.printErrorCode)
    ∧ (p.mc_print_stage = none →
      (onPrinterMessage model lock prev { print := some p }).printStage = prev.printStage)
    ∧ (p.hms = none →
      (onPrinterMessage model lock prev { print := some p }).hms = prev.hms)
    ∧ (onPrinterMessage model lock prev { print := some p }).online = prev.online := by
  rw [onPrinterMessage_eq]
  cases hctc : p.device_ctc_info_temp with
  | none =>
    refine ⟨?_, ?_, ?_, ?_, ?_, ?_, ?_, ?_, ?_, ?_, ?_, ?_, ?_, ?_, ?_, ?_, ?_, ?_, ?_,
      ?_, ?_, ?_, ?_, ?_, ?_, ?_, ?_, ?_⟩ <;> intros <;>
      (first
        | exact ⟨rfl, rfl⟩
        | rfl)
  | some t =>
    refine ⟨?_, ?_, ?_, ?_, ?_, ?_, ?_, ?_, ?_, ?_, ?_, ?_, ?_, ?_, ?_, ?_, ?_, ?_, ?_,
      ?_, ?_, ?_, ?_, ?_, ?_, ?_, ?_, ?_⟩ <;> intros <;>
      (first
        | exact ⟨rfl, rfl⟩
        | rfl
        | (rename_i hc; exact absurd hc (by simp)))

/-- A snapshot mid-print: RUNNING at 42 percent with hot targets and one
active alert. -/
def demoRunningStatus : Status :=
  { online := some true
    gcodeState := some ("RUNNING")
    printProgress := some 42
    remainingTime := some 30
    currentFile := some ("benchy.gcode")
    nozzleTemp := some 219
    nozzleTargetTemp := some 220
    nozzleTargetTemp2 := some 220
    bedTemp := some 55
    bedTargetTemp := some 60
    chamberTemp := some 35
    hms := some [Json.num 83902464] }

/-- Witness for `c1_omitted_fields_retained`: a frame with no keys at all
leaves the 42 percent progress untouched. -/
theorem c1_omitted_fields_retained_witness :
    (onPrinterMessage (some "X1C") (fun _ => none) demoRunningStatus
        { print := some {} }).printProgress = demoRunningStatus.printProgress :=
  (c1_omitted_fields_retained (some "X1C") (fun _ => none) demoRunningStatus {}).2.1 rfl

/-- C2 is violated by the code: a frame that flips the state from RUNNING
to FINISH should zero progress, remaining time, target temperatures and
the alert list (the resets at main.js:581-608 exist for exactly this),
but the handler throws a `ReferenceError` at line 518 — `isH2Model` is
used there and declared only at line 618 — which the empty catch at line
738 swallows, so the snapshot is left entirely unchanged: still RUNNING
at 42 percent with hot targets and a non-empty alert list. The last four
conjuncts show that the unreachable merge `mergeStatus` would have
implemented exactly the claimed reset had control reached it. -/
theorem c2_transition_reset_unreachable :
    onPrinterMessage (some "X1C") (fun _ => none) demoRunningStatus
        { print := some { gcode_state := some ("FINISH") } }
      = demoRunningStatus
    ∧ demoRunningStatus.printProgress = some 42
    ∧ demoRunningStatus.gcodeState = some ("RUNNING")
    ∧ (mergeStatus (some "X1C") (fun _ => none) demoRunningStatus
        { gcode_state := some ("FINISH") }).printProgress = some 0
    ∧ (mergeStatus (some "X1C") (fun _ => none) demoRunningStatus
        { gcode_state := some ("FINISH") }).remainingTime = some 0
    ∧ (mergeStatus (some "X1C") (fun _ => none) demoRunningStatus
        { gcode_state := some ("FINISH") }).nozzleTargetTemp = some 0
    ∧ (mergeStatus (some "X1C") (fun _ => none) demoRunningStatus
        { gcode_state := some ("FINISH") }).nozzleTargetTemp2 = some 0
    ∧ (mergeStatus (some "X1C") (fun _ => none) demoRunningStatus
        { gcode_state := some ("FINISH") }).bedTargetTemp = some 0
    ∧ (mergeStatus (some "X1C") (fun _ => none) demoRunningStatus
        { gcode_state := some ("FINISH") }).hms = some [] := by
  refine ⟨?_, rfl, rfl, ?_, ?_, ?_, ?_, ?_, ?_⟩
  · rw [onPrinterMessage_eq]
  · rfl
  · rfl
  · rfl
  · rfl
  · rfl
  · rfl
